import Mathlib

/-!
# CoRE Resource Directory lookup client (`cord_lc.c`)

A shallow embedding of `sys/net/application_layer/cord/lc/cord_lc.c`.

Conventions of the embedding:

* a byte is a `Nat`, a C object in memory is the list of its bytes (`Bytes`);
  a `char *` is modelled by the bytes found from the pointed-to position on,
  and a read beyond the end of the modelled object yields `0`;
* a C behaviour the standard leaves undefined (a write beyond an array, a
  dereference of `NULL` or of a dead object) is `Except.error Fault.undefined`,
  a failed `assert` is `Fault.assertion`, and a loop that has not finished
  within the supplied number of steps is `Fault.fuel`;
* the collaborators (gcoap, the link-format codec) are inputs: what the
  transport answers during one exchange is a `gcoap_env`, the codec is a
  function of type `clif_decode_link_t`;
* the mutex only serialises callers and is not modelled: every function is
  embedded as the sequential code it runs while holding the lock.
-/

namespace CordLc

abbrev Bytes := List Nat

inductive Fault where
  | undefined
  | assertion
  | fuel
deriving DecidableEq, Repr

deriving instance DecidableEq for Except

/-! ## Constants -/

def FLAG_SUCCESS : Nat := 0x0001
def FLAG_TIMEOUT : Nat := 0x0002
def FLAG_ERR : Nat := 0x0004
def FLAG_OVERFLOW : Nat := 0x0008
def FLAG_NORSC : Nat := 0x0010
def FLAG_MASK : Nat := 0x00ff

/-- Modelled from the spec: the enum of `net/cord/lc.h` is not part of the
sources at hand.  The spec names the outcomes `OK`, `TIMEOUT`, `ERR`,
`OVERFLOW`, `NORSC`; the code tests the error ones with `retval < 0` and
returns byte counts otherwise, so `OK` is `0` and the four error codes are
distinct negative numbers. -/
def CORD_LC_OK : Int := 0
/-- Modelled from the spec: see `CORD_LC_OK`. -/
def CORD_LC_TIMEOUT : Int := -1
/-- Modelled from the spec: see `CORD_LC_OK`. -/
def CORD_LC_ERR : Int := -2
/-- Modelled from the spec: see `CORD_LC_OK`. -/
def CORD_LC_OVERFLOW : Int := -3
/-- Modelled from the spec: see `CORD_LC_OK`. -/
def CORD_LC_NORSC : Int := -4

/-- The content format application/link-format (`ct=40` in the source's own comment). -/
def COAP_FORMAT_LINK : Nat := 40

/-- The `req_state` handed to a gcoap response handler. -/
inductive memo_state where
  | GCOAP_MEMO_RESP
  | GCOAP_MEMO_TIMEOUT
  | GCOAP_MEMO_OTHER
deriving DecidableEq, Repr

/-- The `lookup_type` argument of a raw lookup; the `switch` of `_lookup_raw`
has no default case, `CORD_LC_NONE` stands for any other value. -/
inductive lookup_type_t where
  | CORD_LC_RES
  | CORD_LC_EP
  | CORD_LC_NONE
deriving DecidableEq, Repr

/-! ## Data model -/

/-- The struct `clif_param_t`: a key and a value, each a pointer with an explicit length. -/
structure clif_param_t where
  key : Bytes
  key_len : Nat
  value : Bytes
  value_len : Nat
deriving DecidableEq, Repr

/-- The struct `clif_t`: one decoded link.  `params_len` is the length of `params`. -/
structure clif_t where
  target : Bytes
  target_len : Nat
  params : List clif_param_t
deriving DecidableEq, Repr

/-- The struct `cord_lc_filter_t`: one segment of a filter chain.  `next` is the
address of the following segment, `none` is `NULL`. -/
structure cord_lc_filter_t where
  array : List clif_param_t
  len : Nat
  next : Option Nat
deriving DecidableEq, Repr

/-- The memory holding filter segments: the segment at address `a` is `h[a]?`;
an address outside the list refers to no live object. -/
abbrev Heap := List cord_lc_filter_t

/-- The struct `cord_lc_rd_t`; a `NULL` pointer is `none`. -/
structure cord_lc_rd_t where
  remote : Option Nat
  res_lookif : Option Bytes
  res_lookif_len : Nat
  ep_lookif : Option Bytes
  ep_lookif_len : Nat
  res_last_page : Nat
  ep_last_page : Nat
deriving DecidableEq, Repr

/-- The file-scope variables `_result_buf` (with the content of the buffer it
points to) and `_result_buf_len`. -/
structure Globals where
  _result_buf : Option Bytes
  _result_buf_len : Nat
deriving DecidableEq, Repr

/-- What the transport collaborator does during one exchange: the return
values of `gcoap_req_init`, `gcoap_finish` and `gcoap_req_send2`, and the
arguments with which it invokes the response handler (request state, content
type of the PDU, payload).  `NANOCOAP_QS_MAX` is the size of the staging array
for the URI path. -/
structure gcoap_env where
  NANOCOAP_QS_MAX : Nat
  req_init : Int
  finish : Int
  send : Int
  req_state : memo_state
  ct : Nat
  payload : Bytes
deriving DecidableEq, Repr

/-- One `gcoap_add_qstring(&pkt, key, val)` call: the two C strings passed. -/
abbrev QParam := Bytes × Bytes

/-! ## C library helpers -/

/-- The C string starting at a pointer: the bytes before the first NUL. -/
def cstr (s : Bytes) : Bytes := s.takeWhile (fun b => b != 0)

/-- The call `snprintf(dst, n, fmt, ...)` where `text` is the fully formatted
output and `dst` an array of `cap` bytes.  At most `n - 1` characters and a
NUL are stored; the return value is the length of the full output.  Storing
beyond `cap` bytes is undefined.  With `n = 0` nothing is stored and `dst`
stays uninitialised, so that its later use as a string is undefined: the
embedding faults there as well. -/
def snprintf (cap n : Nat) (text : Bytes) : Except Fault (Bytes × Nat) :=
  if n = 0 then .error .undefined
  else if (text.take (n - 1)).length + 1 ≤ cap then .ok (text.take (n - 1), text.length)
  else .error .undefined

/-- The output of the conversion `%u`. -/
def fmt_u (c : Nat) : Bytes := (Nat.toDigits 10 c).map Char.toNat

/-- The function `strncmp(a, b, n)`: the difference of the first differing
bytes among the first `n`, comparison stopping after a NUL. -/
def strncmp : Bytes → Bytes → Nat → Int
  | _, _, 0 => 0
  | a, b, n + 1 =>
    if a.headD 0 ≠ b.headD 0 then (a.headD 0 : Int) - (b.headD 0 : Int)
    else if a.headD 0 = 0 then 0
    else strncmp a.tail b.tail n

/-- The increment of an `unsigned` (32 bits). -/
def uint_succ (c : Nat) : Nat := (c + 1) % 4294967296

/-! ## Exchange coordinator -/

/-- The function `_sync`: `flags` is what `thread_flags_wait_any(FLAG_MASK)` returned. -/
def _sync (flags : Nat) : Int :=
  if flags &&& FLAG_ERR ≠ 0 then CORD_LC_ERR
  else if flags &&& FLAG_TIMEOUT ≠ 0 then CORD_LC_TIMEOUT
  else if flags &&& FLAG_OVERFLOW ≠ 0 then CORD_LC_OVERFLOW
  else if flags &&& FLAG_NORSC ≠ 0 then CORD_LC_NORSC
  else CORD_LC_OK

/-- The response handler `_on_lookup`: the globals after it ran and the flag
it raised. -/
def _on_lookup (g : Globals) (req_state : memo_state) (ct : Nat) (payload : Bytes) :
    Except Fault (Globals × Nat) :=
  match req_state with
  | .GCOAP_MEMO_RESP =>
    if ct ≠ COAP_FORMAT_LINK then .ok (g, FLAG_ERR)
    else if payload.length = 0 then .ok (g, FLAG_NORSC)
    else if payload.length ≥ g._result_buf_len then .ok (g, FLAG_OVERFLOW)
    else
      match g._result_buf with
      | none => .error .undefined
      | some b =>
        if g._result_buf_len ≤ b.length then
          .ok (⟨some (payload ++ List.replicate (g._result_buf_len - payload.length) 0
                      ++ b.drop g._result_buf_len), payload.length⟩, FLAG_SUCCESS)
        else .error .undefined
  | .GCOAP_MEMO_TIMEOUT => .ok (g, FLAG_TIMEOUT)
  | .GCOAP_MEMO_OTHER => .ok (g, FLAG_ERR)

/-- The response handler `_on_rd_init`. -/
def _on_rd_init (g : Globals) (req_state : memo_state) (ct : Nat) (payload : Bytes) :
    Except Fault (Globals × Nat) :=
  match req_state with
  | .GCOAP_MEMO_RESP =>
    if ct ≠ COAP_FORMAT_LINK then .ok (⟨none, 0⟩, FLAG_NORSC)
    else if payload.length = 0 then .ok (⟨none, 0⟩, FLAG_NORSC)
    else
      match g._result_buf with
      | none => .error .undefined
      | some b =>
        if payload.length ≤ b.length then
          .ok (⟨some (payload ++ b.drop payload.length), payload.length⟩, FLAG_SUCCESS)
        else .error .undefined
  | .GCOAP_MEMO_TIMEOUT => .ok (⟨none, 0⟩, FLAG_TIMEOUT)
  | .GCOAP_MEMO_OTHER => .ok (⟨none, 0⟩, FLAG_NORSC)

/-! ## Raw lookup -/

/-- The staging of the URI path in `_lookup_raw`: `lookif` is zeroed, then
`memcpy` copies the declared number of bytes of the selected interface.  The
result is the C string handed to `gcoap_req_init`. -/
def select_lookif (qs_max : Nat) (rd : cord_lc_rd_t) (lookup_type : lookup_type_t) :
    Except Fault Bytes :=
  let copy (src : Option Bytes) (n : Nat) : Except Fault Bytes :=
    if n = 0 then (if 0 < qs_max then .ok [] else .error .undefined)
    else
      match src with
      | none => .error .undefined
      | some s => if n < qs_max then .ok (cstr (s.take n)) else .error .undefined
  match lookup_type with
  | .CORD_LC_RES => copy rd.res_lookif rd.res_lookif_len
  | .CORD_LC_EP => copy rd.ep_lookif rd.ep_lookif_len
  | .CORD_LC_NONE => if 0 < qs_max then .ok [] else .error .undefined

/-- The body of the `for` loop of `_lookup_raw` for one filter entry: key and
value are staged with `snprintf(key, key_len + 1, "%s", ...)` into arrays of
32 bytes and passed to `gcoap_add_qstring`. -/
def stage_filter (p : clif_param_t) : Except Fault QParam :=
  match snprintf 32 (p.key_len + 1) (cstr p.key) with
  | .error e => .error e
  | .ok (key, _) =>
    match snprintf 32 (p.value_len + 1) (cstr p.value) with
    | .error e => .error e
    | .ok (val, _) => .ok (key, val)

/-- The `for` loop of `_lookup_raw` over `f->array[0 .. f->len - 1]`; the first
argument is the array from the current index on, the second the number of
iterations left. -/
def add_entries : List clif_param_t → Nat → Except Fault (List QParam)
  | _, 0 => .ok []
  | [], _ + 1 => .error .undefined
  | p :: ps, n + 1 =>
    match stage_filter p with
    | .error e => .error e
    | .ok q =>
      match add_entries ps n with
      | .error e => .error e
      | .ok qs => .ok (q :: qs)

/-- The `while (f)` loop of `_lookup_raw`: the query parameters added while
walking the chain from `f`. -/
def add_filters (h : Heap) : Nat → Option Nat → Except Fault (List QParam)
  | _, none => .ok []
  | 0, some _ => .error .fuel
  | fuel + 1, some a =>
    match h[a]? with
    | none => .error .undefined
    | some f =>
      match add_entries f.array f.len with
      | .error e => .error e
      | .ok qs =>
        match add_filters h fuel f.next with
        | .error e => .error e
        | .ok rest => .ok (qs ++ rest)

/-- What a raw lookup leaves behind: its return value, the URI path and the
query parameters of the request it built, the content of the caller's result
buffer, and the globals. -/
structure lookup_out where
  retval : Int
  uri : Bytes
  query : List QParam
  result : Bytes
  g : Globals
deriving DecidableEq, Repr

/-- The function `_lookup_raw`.  Its argument `content_format` only becomes
the Accept option of the request and is left out; a request that
`gcoap_req_send2` accepted is answered by one run of the handler before
`_sync` returns. -/
def _lookup_raw (env : gcoap_env) (h : Heap) (fuel : Nat) (g : Globals) (rd : cord_lc_rd_t)
    (lookup_type : lookup_type_t) (filters : Option Nat) (result : Bytes) (maxlen : Nat) :
    Except Fault lookup_out :=
  if rd.remote.isNone then .error .assertion
  else
    match select_lookif env.NANOCOAP_QS_MAX rd lookup_type with
    | .error e => .error e
    | .ok lookif =>
      if env.req_init < 0 then .ok ⟨CORD_LC_ERR, lookif, [], result, g⟩
      else
        match add_filters h fuel filters with
        | .error e => .error e
        | .ok query =>
          if env.finish < 0 then
            .ok ⟨CORD_LC_ERR, lookif, query, result, ⟨some result, maxlen⟩⟩
          else if env.send < 0 then
            .ok ⟨CORD_LC_ERR, lookif, query, result, ⟨some result, maxlen⟩⟩
          else
            match _on_lookup ⟨some result, maxlen⟩ env.req_state env.ct env.payload with
            | .error e => .error e
            | .ok (g1, flag) =>
              let retval := _sync (flag &&& FLAG_MASK)
              .ok ⟨if retval = CORD_LC_OK then (g1._result_buf_len : Int) else retval,
                   lookif, query, g1._result_buf.getD result, g1⟩

/-- The function `cord_lc_raw`. -/
def cord_lc_raw (env : gcoap_env) (h : Heap) (fuel : Nat) (g : Globals) (rd : cord_lc_rd_t)
    (lookup_type : lookup_type_t) (filters : Option Nat) (result : Bytes) (maxlen : Nat) :
    Except Fault lookup_out :=
  _lookup_raw env h fuel g rd lookup_type filters result maxlen

/-! ## Directory bootstrap -/

/-- The result of one `clif_decode_link` call: its return value (negative on
error, else the number of bytes consumed) and the link it filled in, whose
parameters it stored in the slice of the parameter array it was given. -/
structure decode_result where
  ret : Int
  link : clif_t
deriving DecidableEq, Repr

/-- The link-format codec `clif_decode_link(link, params, params_len, buf, maxlen)`
as a function of the parameter capacity and of the `maxlen` input bytes. -/
abbrev clif_decode_link_t := Nat → Bytes → decode_result

/-- The string literal `"core.rd-lookup-res"` with its terminator. -/
def LOOKUP_RES : Bytes :=
  [99, 111, 114, 101, 46, 114, 100, 45, 108, 111, 111, 107, 117, 112, 45, 114, 101, 115, 0]

/-- The string literal `"core.rd-lookup-ep"` with its terminator. -/
def LOOKUP_EP : Bytes :=
  [99, 111, 114, 101, 46, 114, 100, 45, 108, 111, 111, 107, 117, 112, 45, 101, 112, 0]

/-- The function `_send_rd_init_req`: its return value and the globals after it. -/
def _send_rd_init_req (env : gcoap_env) (g : Globals) : Except Fault (Int × Globals) :=
  if env.req_init < 0 then .ok (CORD_LC_ERR, g)
  else if env.finish < 0 then .ok (CORD_LC_ERR, g)
  else if env.send = 0 then .ok (CORD_LC_ERR, g)
  else
    match _on_rd_init g env.req_state env.ct env.payload with
    | .error e => .error e
    | .ok (g1, flag) => .ok (_sync (flag &&& FLAG_MASK), g1)

/-- The `for` loop of `cord_lc_rd_init` over the parameters of the record just
decoded (`params[i + params_used]` for `i < lookif.params_len`). -/
def scan_params (lookif : clif_t) : List clif_param_t → cord_lc_rd_t → cord_lc_rd_t
  | [], rd => rd
  | p :: ps, rd =>
    if strncmp p.value LOOKUP_RES p.value_len = 0 then
      scan_params lookif ps
        { rd with res_lookif := some lookif.target, res_lookif_len := lookif.target_len }
    else if strncmp p.value LOOKUP_EP p.value_len = 0 then
      scan_params lookif ps
        { rd with ep_lookif := some lookif.target, ep_lookif_len := lookif.target_len }
    else scan_params lookif ps rd

/-- The local state of the parsing loop of `cord_lc_rd_init`; `calls` records
the offsets (`parsed_len`) at which `clif_decode_link` was called. -/
structure init_state where
  rd : cord_lc_rd_t
  params_used : Nat
  parsed_len : Nat
  calls : List Nat
deriving DecidableEq, Repr

/-- The parsing loop of `cord_lc_rd_init` together with the test that follows
it, over the buffer content `b` and `_result_buf_len = len`.  The two
subtractions are those of the source for a codec that keeps its contract (it
consumes no more than `maxlen` bytes and stores no more than `params_len`
parameters), so that neither unsigned difference wraps. -/
def parse_payload (dec : clif_decode_link_t) (b : Bytes) (len : Nat) :
    Nat → init_state → Except Fault (Int × init_state)
  | fuel, s =>
    if (s.rd.res_lookif.isNone ∨ s.rd.ep_lookif.isNone) ∨ s.parsed_len ≠ len then
      match fuel with
      | 0 => .error .fuel
      | fuel + 1 =>
        let r := dec (6 - s.params_used) ((b.drop s.parsed_len).take (len - s.parsed_len))
        if r.ret < 0 then
          .ok (CORD_LC_ERR, { s with calls := s.calls ++ [s.parsed_len] })
        else
          parse_payload dec b len fuel
            { rd := scan_params r.link r.link.params s.rd,
              params_used := s.params_used + r.link.params.length,
              parsed_len := s.parsed_len + r.ret.toNat,
              calls := s.calls ++ [s.parsed_len] }
    else if s.rd.res_lookif.isNone ∧ s.rd.ep_lookif.isNone then .ok (CORD_LC_NORSC, s)
    else .ok ((s.parsed_len : Int), s)

/-- What `cord_lc_rd_init` leaves behind: its return value, the handle, the
offsets of the `clif_decode_link` calls it made, and the globals. -/
structure init_out where
  retval : Int
  rd : cord_lc_rd_t
  calls : List Nat
  g : Globals
deriving DecidableEq, Repr

/-- The function `cord_lc_rd_init`. -/
def cord_lc_rd_init (env : gcoap_env) (dec : clif_decode_link_t) (fuel : Nat)
    (rd : cord_lc_rd_t) (remote : Option Nat) (buf : Bytes) (maxlen : Nat) :
    Except Fault init_out :=
  if remote.isNone then .error .assertion
  else if buf.length < maxlen then .error .undefined
  else
    let rd1 := { rd with remote := remote }
    match _send_rd_init_req env ⟨some (List.replicate maxlen 48 ++ buf.drop maxlen), maxlen⟩ with
    | .error e => .error e
    | .ok (retval, g1) =>
      if retval ≠ CORD_LC_OK then .ok ⟨retval, rd1, [], g1⟩
      else
        match g1._result_buf with
        | none => .error .undefined
        | some b =>
          match parse_payload dec b g1._result_buf_len fuel ⟨rd1, 0, 0, []⟩ with
          | .error e => .error e
          | .ok (r, s) => .ok ⟨r, s.rd, s.calls, g1⟩

/-! ## Paginated typed lookup -/

/-- The struct `cord_lc_res_t` (also `cord_lc_ep_t`): the link to fill in and
the capacity of its parameter array. -/
structure cord_lc_result_t where
  link : clif_t
  max_params : Nat
deriving DecidableEq, Repr

/-- The local `new_filters` with its array `new_array`: `count` with the
literal `"1"`, and `page` with the local array `page`; the lengths of the
literals are taken with `sizeof`. -/
def new_filters (page : Bytes) (pagelen : Nat) : cord_lc_filter_t :=
  { array := [⟨[99, 111, 117, 110, 116, 0], 6, [49, 0], 2⟩,
              ⟨[112, 97, 103, 101, 0], 5, page ++ [0], pagelen⟩],
    len := 2,
    next := none }

/-- What a typed lookup leaves behind: its return value, the value its raw
lookup returned (`raw`), the handle, the filter memory as the caller finds
it, the link record, the caller's buffer, the request that was built, and the
globals. -/
structure typed_out where
  retval : Int
  raw : Int
  rd : cord_lc_rd_t
  heap : Heap
  link : clif_t
  buf : Bytes
  uri : Bytes
  query : List QParam
  g : Globals
deriving DecidableEq, Repr

/-- The function `cord_lc_res`.  The local `new_filters` lives at the first
address beyond the caller's memory, `h.length`, while the call runs. -/
def cord_lc_res (env : gcoap_env) (dec : clif_decode_link_t) (h : Heap) (fuel : Nat)
    (g : Globals) (rd : cord_lc_rd_t) (resource : cord_lc_result_t) (filters : Option Nat)
    (buf : Bytes) (maxlen : Nat) : Except Fault typed_out :=
  match snprintf 3 maxlen (fmt_u rd.res_last_page) with
  | .error e => .error e
  | .ok (page, pagelen) =>
    let rd1 := { rd with res_last_page := uint_succ rd.res_last_page }
    match filters with
    | none => .error .undefined
    | some a =>
      match h[a]? with
      | none => .error .undefined
      | some f =>
        let h1 := h.set a { f with next := some h.length }
        match _lookup_raw env (h1 ++ [new_filters page pagelen]) fuel g rd1 .CORD_LC_RES
                filters buf maxlen with
        | .error e => .error e
        | .ok out =>
          if out.retval < 0 then
            .ok ⟨out.retval, out.retval,
                 if out.retval = CORD_LC_NORSC then { rd1 with res_last_page := 0 } else rd1,
                 h1, resource.link, out.result, out.uri, out.query, out.g⟩
          else
            let r := dec resource.max_params (out.result.take out.retval.toNat)
            .ok ⟨r.ret, out.retval, rd1, h1, r.link, out.result, out.uri, out.query, out.g⟩

/-- The function `cord_lc_ep`. -/
def cord_lc_ep (env : gcoap_env) (dec : clif_decode_link_t) (h : Heap) (fuel : Nat)
    (g : Globals) (rd : cord_lc_rd_t) (endpoint : cord_lc_result_t) (filters : Option Nat)
    (buf : Bytes) (maxlen : Nat) : Except Fault typed_out :=
  match snprintf 3 maxlen (fmt_u rd.ep_last_page) with
  | .error e => .error e
  | .ok (page, pagelen) =>
    let rd1 := { rd with ep_last_page := uint_succ rd.ep_last_page }
    match filters with
    | none => .error .undefined
    | some a =>
      match h[a]? with
      | none => .error .undefined
      | some f =>
        let h1 := h.set a { f with next := some h.length }
        match _lookup_raw env (h1 ++ [new_filters page pagelen]) fuel g rd1 .CORD_LC_EP
                filters buf maxlen with
        | .error e => .error e
        | .ok out =>
          if out.retval < 0 then
            .ok ⟨out.retval, out.retval,
                 if out.retval = CORD_LC_NORSC then { rd1 with ep_last_page := 0 } else rd1,
                 h1, endpoint.link, out.result, out.uri, out.query, out.g⟩
          else
            let r := dec endpoint.max_params (out.result.take out.retval.toNat)
            .ok ⟨r.ret, out.retval, rd1, h1, r.link, out.result, out.uri, out.query, out.g⟩

/-! ## Reference definitions and example collaborators -/

/-- The segments of the chain starting at `f`, when the walk reaches `NULL`
within `fuel` steps through live segments (the chain is not circular). -/
def chain_segments (h : Heap) : Nat → Option Nat → Option (List cord_lc_filter_t)
  | _, none => some []
  | 0, some _ => none
  | fuel + 1, some a =>
    match h[a]? with
    | none => none
    | some f => (chain_segments h fuel f.next).map (fun segs => f :: segs)

/-- The query parameter the code emits for a filter entry: the first `key_len`
bytes of the key and the first `value_len` bytes of the value, each cut at
its first NUL byte. -/
def staged_entry (p : clif_param_t) : QParam :=
  ((cstr p.key).take p.key_len, (cstr p.value).take p.value_len)

/-- The query the code emits for a chain. -/
def staged_query (segs : List cord_lc_filter_t) : List QParam :=
  segs.flatMap (fun f => (f.array.take f.len).map staged_entry)

/-- An example codec, used to run the functions on concrete payloads: it knows
the records of `table` (the bytes of a record and the link they decode to),
decodes the record the input starts with when the capacity suffices for its
parameters, and returns an error for any other input, the empty one included. -/
def example_codec (table : List (Bytes × clif_t)) : clif_decode_link_t :=
  fun cap input =>
    match table.find? (fun e => decide (e.1 ≠ [] ∧ input.take e.1.length = e.1
                                          ∧ e.2.params.length ≤ cap)) with
    | some e => ⟨(e.1.length : Int), e.2⟩
    | none => ⟨-1, ⟨[], 0, []⟩⟩

/-- A transport that accepts the request and delivers a link-format response
with the given payload. -/
def env_response (payload : Bytes) : gcoap_env :=
  ⟨64, 0, 24, 24, .GCOAP_MEMO_RESP, COAP_FORMAT_LINK, payload⟩

/-- A handle after a bootstrap that found the resource-lookup interface `/r`
and the endpoint-lookup interface `/e`. -/
def example_rd (res_page ep_page : Nat) : cord_lc_rd_t :=
  ⟨some 1, some [47, 114], 2, some [47, 101], 2, res_page, ep_page⟩

/-- A handle before bootstrap. -/
def empty_rd : cord_lc_rd_t := ⟨none, none, 0, none, 0, 0, 0⟩

/-- The record `</x>` with no parameter. -/
def record_x : Bytes × clif_t := ([60, 47, 120, 62], ⟨[47, 120, 62], 2, []⟩)

/-- The filter entry `ep=n1`. -/
def filter_ep : clif_param_t := ⟨[101, 112], 2, [110, 49], 2⟩

/-- The filter entry `rt=t`. -/
def filter_rt : clif_param_t := ⟨[114, 116], 2, [116], 1⟩

/-- A transport that accepts the request and reports a timeout. -/
def env_timeout : gcoap_env := ⟨64, 0, 24, 24, .GCOAP_MEMO_TIMEOUT, 0, []⟩

/-- A caller's chain of one segment, `ep=n1`, at address 0. -/
def chain_one : Heap := [⟨[filter_ep], 1, none⟩]

/-- A caller's chain of two segments: `ep=n1` at address 0, followed by `rt=t`
at address 1. -/
def chain_two : Heap := [⟨[filter_ep], 1, some 1⟩, ⟨[filter_rt], 1, none⟩]

/-- A caller's record with room for 5 parameters. -/
def empty_result : cord_lc_result_t := ⟨⟨[], 0, []⟩, 5⟩

/-- A scratch buffer of 8 bytes. -/
def scratch8 : Bytes := [7, 7, 7, 7, 7, 7, 7, 7]

/-- The state `cord_lc_res` returns with on `chain_one`, cursors 5 (resource)
and 3 (endpoint), when the transport reports a timeout. -/
def out_res_timeout : typed_out :=
  { retval := -1, raw := -1,
    rd := example_rd 6 3,
    heap := [⟨[filter_ep], 1, some 1⟩],
    link := ⟨[], 0, []⟩,
    buf := scratch8,
    uri := [47, 114],
    query := [([101, 112], [110, 49]), ([99, 111, 117, 110, 116], [49]), ([112, 97, 103, 101], [53])],
    g := ⟨some scratch8, 8⟩ }

/-- The state `cord_lc_res` returns with, from the same start, when the
response is link-format with an empty payload. -/
def out_res_norsc : typed_out :=
  { out_res_timeout with retval := -4, raw := -4, rd := example_rd 0 3 }

/-- The state `cord_lc_ep` returns with, from the same start, when the
response is link-format with an empty payload. -/
def out_ep_norsc : typed_out :=
  { out_res_norsc with
    rd := example_rd 5 0, uri := [47, 101],
    query := [([101, 112], [110, 49]), ([99, 111, 117, 110, 116], [49]), ([112, 97, 103, 101], [51])] }

/-- The state `cord_lc_res` returns with, from the same start, when the
response is the record `</x>`. -/
def out_res_success : typed_out :=
  { retval := 4, raw := 4,
    rd := example_rd 6 3,
    heap := [⟨[filter_ep], 1, some 1⟩],
    link := record_x.2,
    buf := [60, 47, 120, 62, 0, 0, 0, 0],
    uri := [47, 114],
    query := [([101, 112], [110, 49]), ([99, 111, 117, 110, 116], [49]), ([112, 97, 103, 101], [53])],
    g := ⟨some [60, 47, 120, 62, 0, 0, 0, 0], 4⟩ }

/-- The state `cord_lc_ep` returns with, from the same start, when the
response is the record `</x>`. -/
def out_ep_success : typed_out :=
  { out_res_success with
    rd := example_rd 5 4, uri := [47, 101],
    query := [([101, 112], [110, 49]), ([99, 111, 117, 110, 116], [49]), ([112, 97, 103, 101], [51])] }

/-- The state `cord_lc_res` returns with on `chain_two`, cursor 0, when the
response is the record `</x>`. -/
def out_res_two : typed_out :=
  { retval := 4, raw := 4,
    rd := example_rd 1 0,
    heap := [⟨[filter_ep], 1, some 2⟩, ⟨[filter_rt], 1, none⟩],
    link := record_x.2,
    buf := [60, 47, 120, 62, 0, 0, 0, 0],
    uri := [47, 114],
    query := [([101, 112], [110, 49]), ([99, 111, 117, 110, 116], [49]), ([112, 97, 103, 101], [48])],
    g := ⟨some [60, 47, 120, 62, 0, 0, 0, 0], 4⟩ }

/-- The state `cord_lc_res` returns with on `chain_one`, cursor 0, when the
response is the record `</x>`. -/
def out_res_one : typed_out :=
  { out_res_two with heap := [⟨[filter_ep], 1, some 1⟩] }

/-- The bootstrap payload `</rd-lookup/ep>;rt="core.rd-lookup-ep"`, 38 bytes. -/
def payload_ep : Bytes :=
  [60, 47, 114, 100, 45, 108, 111, 111, 107, 117, 112, 47, 101, 112, 62, 59, 114, 116, 61, 34,
   99, 111, 114, 101, 46, 114, 100, 45, 108, 111, 111, 107, 117, 112, 45, 101, 112, 34]

/-- The record of `payload_ep`: the target `/rd-lookup/ep` (13 bytes from
offset 1) and the parameter `rt` (2 bytes from offset 16) with the value
`core.rd-lookup-ep` (17 bytes from offset 20). -/
def record_ep : Bytes × clif_t :=
  (payload_ep, ⟨payload_ep.drop 1, 13, [⟨payload_ep.drop 16, 2, payload_ep.drop 20, 17⟩]⟩)

/-- The bootstrap payload `</a>;rt="core"`, 14 bytes. -/
def payload_core : Bytes := [60, 47, 97, 62, 59, 114, 116, 61, 34, 99, 111, 114, 101, 34]

/-- The record of `payload_core`: the target `/a` and the parameter `rt` with
the value `core` (4 bytes from offset 9). -/
def record_core : Bytes × clif_t :=
  (payload_core, ⟨payload_core.drop 1, 2, [⟨payload_core.drop 5, 2, payload_core.drop 9, 4⟩]⟩)

/-- The bootstrap payload `</a>;obs`, 8 bytes. -/
def payload_obs : Bytes := [60, 47, 97, 62, 59, 111, 98, 115]

/-- The record of `payload_obs`: the target `/a` and the parameter `obs`,
which has no value (`value_len = 0`). -/
def record_obs : Bytes × clif_t :=
  (payload_obs, ⟨payload_obs.drop 1, 2, [⟨payload_obs.drop 5, 3, [], 0⟩]⟩)

/-- A scratch buffer of 40 bytes. -/
def scratch40 : Bytes := List.replicate 40 0

/-- Consecutive `cord_lc_res` calls with the same arguments, one per transport
behaviour of the list; each call finds the handle, the filter memory, the
buffer and the globals as the previous call left them.  The result lists the
query of each call and the handle after the last one. -/
def res_calls (dec : clif_decode_link_t) (fuel : Nat) (r : cord_lc_result_t)
    (filters : Option Nat) (maxlen : Nat) :
    List gcoap_env → Heap → Globals → cord_lc_rd_t → Bytes →
      Except Fault (List (List QParam) × cord_lc_rd_t)
  | [], _, _, rd, _ => .ok ([], rd)
  | env :: envs, h, g, rd, buf =>
    match cord_lc_res env dec h fuel g rd r filters buf maxlen with
    | .error e => .error e
    | .ok out =>
      match res_calls dec fuel r filters maxlen envs out.heap out.g out.rd out.buf with
      | .error e => .error e
      | .ok (qs, rd2) => .ok (out.query :: qs, rd2)

/-! ## Shared lemmas -/

theorem sync_success : _sync (FLAG_SUCCESS &&& FLAG_MASK) = CORD_LC_OK := by decide

theorem sync_timeout : _sync (FLAG_TIMEOUT &&& FLAG_MASK) = CORD_LC_TIMEOUT := by decide

theorem sync_err : _sync (FLAG_ERR &&& FLAG_MASK) = CORD_LC_ERR := by decide

theorem sync_overflow : _sync (FLAG_OVERFLOW &&& FLAG_MASK) = CORD_LC_OVERFLOW := by decide

theorem sync_norsc : _sync (FLAG_NORSC &&& FLAG_MASK) = CORD_LC_NORSC := by decide

/-- Once the request is built and handed to the transport, `_lookup_raw`
returns what the handler's flag stands for, the byte count on success. -/
theorem lookup_raw_exchange (env : gcoap_env) (h : Heap) (fuel : Nat) (g : Globals)
    (rd : cord_lc_rd_t) (lt : lookup_type_t) (filters : Option Nat) (result : Bytes)
    (maxlen : Nat) (uri : Bytes) (q : List QParam) (g1 : Globals) (flag : Nat)
    (hrem : rd.remote ≠ none)
    (huri : select_lookif env.NANOCOAP_QS_MAX rd lt = .ok uri)
    (hinit : 0 ≤ env.req_init)
    (hq : add_filters h fuel filters = .ok q)
    (hfin : 0 ≤ env.finish) (hsend : 0 ≤ env.send)
    (hcb : _on_lookup ⟨some result, maxlen⟩ env.req_state env.ct env.payload = .ok (g1, flag)) :
    _lookup_raw env h fuel g rd lt filters result maxlen
      = .ok ⟨if _sync (flag &&& FLAG_MASK) = CORD_LC_OK then (g1._result_buf_len : Int)
             else _sync (flag &&& FLAG_MASK),
             uri, q, g1._result_buf.getD result, g1⟩ := by
  have h1 : rd.remote.isNone = false := by
    cases hr : rd.remote with
    | none => exact absurd hr hrem
    | some _ => rfl
  simp only [_lookup_raw, h1, huri, hq, hcb, not_lt.mpr hinit, not_lt.mpr hfin,
    not_lt.mpr hsend, if_false, Bool.false_eq_true]

/-! ## C4: buffer bound of a raw lookup -/

/-- C4, as stated, fails: with a result buffer of size `n = 0` and a
link-format response with an empty payload (`p = 0`, so `p ≥ n`), the raw
lookup returns `CORD_LC_NORSC`, not `CORD_LC_OVERFLOW`: the handler tests the
empty payload before the size. -/
theorem raw_lookup_empty_payload_not_overflow :
    (env_response []).payload.length ≥ 0 ∧
    (cord_lc_raw (env_response []) [] 0 ⟨none, 0⟩ (example_rd 0 0) .CORD_LC_RES none [] 0).map
        (fun o => o.retval) = .ok CORD_LC_NORSC ∧
    CORD_LC_NORSC ≠ CORD_LC_OVERFLOW := by
  decide

/-- C4, amended: for a raw lookup whose request was built and sent, given a
result buffer of size `n` and a link-format response with a non-empty payload
of length `p`: if `p < n` the call returns exactly `p` and the buffer holds the
payload followed by `n - p` zero bytes; if `p ≥ n` the call returns
`CORD_LC_OVERFLOW` and the buffer is as it was. -/
theorem raw_lookup_buffer_bound (env : gcoap_env) (h : Heap) (fuel : Nat) (g : Globals)
    (rd : cord_lc_rd_t) (lt : lookup_type_t) (filters : Option Nat) (result : Bytes)
    (n : Nat) (uri : Bytes) (q : List QParam)
    (hrem : rd.remote ≠ none)
    (huri : select_lookif env.NANOCOAP_QS_MAX rd lt = .ok uri)
    (hinit : 0 ≤ env.req_init)
    (hq : add_filters h fuel filters = .ok q)
    (hfin : 0 ≤ env.finish) (hsend : 0 ≤ env.send)
    (hstate : env.req_state = .GCOAP_MEMO_RESP) (hct : env.ct = COAP_FORMAT_LINK)
    (hbuf : result.length = n) (hp : 0 < env.payload.length) :
    (env.payload.length < n →
      cord_lc_raw env h fuel g rd lt filters result n
        = .ok ⟨(env.payload.length : Int), uri, q,
               env.payload ++ List.replicate (n - env.payload.length) 0,
               ⟨some (env.payload ++ List.replicate (n - env.payload.length) 0),
                env.payload.length⟩⟩) ∧
    (n ≤ env.payload.length →
      cord_lc_raw env h fuel g rd lt filters result n
        = .ok ⟨CORD_LC_OVERFLOW, uri, q, result, ⟨some result, n⟩⟩) := by
  constructor
  · intro hlt
    have hcb : _on_lookup ⟨some result, n⟩ env.req_state env.ct env.payload
        = .ok (⟨some (env.payload ++ List.replicate (n - env.payload.length) 0),
                env.payload.length⟩, FLAG_SUCCESS) := by
      have h0 : env.payload.length ≠ 0 := Nat.pos_iff_ne_zero.mp hp
      have hd : result.drop n = [] := List.drop_eq_nil_of_le (le_of_eq hbuf)
      simp [_on_lookup, hstate, hct, h0, not_le.mpr hlt, hd, hbuf]
    rw [cord_lc_raw, lookup_raw_exchange env h fuel g rd lt filters result n uri q _ _
      hrem huri hinit hq hfin hsend hcb, sync_success]
    simp
  · intro hge
    have hcb : _on_lookup ⟨some result, n⟩ env.req_state env.ct env.payload
        = .ok (⟨some result, n⟩, FLAG_OVERFLOW) := by
      have h0 : env.payload.length ≠ 0 := Nat.pos_iff_ne_zero.mp hp
      simp [_on_lookup, hstate, hct, h0, hge]
    rw [cord_lc_raw, lookup_raw_exchange env h fuel g rd lt filters result n uri q _ _
      hrem huri hinit hq hfin hsend hcb, sync_overflow]
    simp [CORD_LC_OVERFLOW, CORD_LC_OK]

/-- The amended C4 at a payload of 4 bytes: with a buffer of 5 bytes (one
byte more than the payload) the call returns 4 and the buffer holds the
payload and one zero byte; with a buffer of 4 bytes the call returns
`CORD_LC_OVERFLOW` and the buffer is untouched. -/
theorem raw_lookup_buffer_bound_witness :
    cord_lc_raw (env_response record_x.1) [⟨[filter_ep], 1, none⟩] 1 ⟨none, 0⟩
        (example_rd 0 0) .CORD_LC_RES (some 0) [7, 7, 7, 7, 7] 5
      = .ok ⟨4, [47, 114], [([101, 112], [110, 49])], [60, 47, 120, 62, 0],
             ⟨some [60, 47, 120, 62, 0], 4⟩⟩ ∧
    cord_lc_raw (env_response record_x.1) [⟨[filter_ep], 1, none⟩] 1 ⟨none, 0⟩
        (example_rd 0 0) .CORD_LC_RES (some 0) [7, 7, 7, 7] 4
      = .ok ⟨CORD_LC_OVERFLOW, [47, 114], [([101, 112], [110, 49])], [7, 7, 7, 7],
             ⟨some [7, 7, 7, 7], 4⟩⟩ :=
  ⟨(raw_lookup_buffer_bound (env_response record_x.1) [⟨[filter_ep], 1, none⟩] 1 ⟨none, 0⟩
      (example_rd 0 0) .CORD_LC_RES (some 0) [7, 7, 7, 7, 7] 5 [47, 114]
      [([101, 112], [110, 49])] (by decide) (by decide) (by decide) (by decide) (by decide)
      (by decide) rfl rfl rfl (by decide)).1 (by decide),
   (raw_lookup_buffer_bound (env_response record_x.1) [⟨[filter_ep], 1, none⟩] 1 ⟨none, 0⟩
      (example_rd 0 0) .CORD_LC_RES (some 0) [7, 7, 7, 7] 4 [47, 114]
      [([101, 112], [110, 49])] (by decide) (by decide) (by decide) (by decide) (by decide)
      (by decide) rfl rfl rfl (by decide)).2 (by decide)⟩

/-! ## Lemmas on the filter walk -/

theorem snprintf_ok_of_fits (k : Nat) (text : Bytes) (hfit : (text.take k).length < 32) :
    snprintf 32 (k + 1) text = .ok (text.take k, text.length) := by
  have h1 : (text.take k).length + 1 ≤ 32 := hfit
  simp only [snprintf, Nat.add_sub_cancel, Nat.succ_ne_zero, if_false, h1, if_true]

theorem snprintf_eq_ok (cap k : Nat) (text : Bytes) (r : Bytes × Nat)
    (hr : snprintf cap (k + 1) text = .ok r) : r.1 = text.take k := by
  simp only [snprintf, Nat.add_sub_cancel, Nat.succ_ne_zero, if_false] at hr
  split at hr
  · simp only [Except.ok.injEq] at hr
    rw [← hr]
  · exact absurd hr (by simp)

theorem stage_filter_ok (p : clif_param_t)
    (hk : ((cstr p.key).take p.key_len).length < 32)
    (hv : ((cstr p.value).take p.value_len).length < 32) :
    stage_filter p = .ok (staged_entry p) := by
  simp only [stage_filter, snprintf_ok_of_fits _ _ hk, snprintf_ok_of_fits _ _ hv, staged_entry]

theorem stage_filter_eq_ok (p : clif_param_t) (q : QParam) (hq : stage_filter p = .ok q) :
    q = staged_entry p := by
  simp only [stage_filter] at hq
  split at hq
  · exact absurd hq (by simp)
  · rename_i key n1 hkey
    split at hq
    · exact absurd hq (by simp)
    · rename_i val n2 hval
      simp only [Except.ok.injEq] at hq
      have h1 := snprintf_eq_ok _ _ _ _ hkey
      have h2 := snprintf_eq_ok _ _ _ _ hval
      simp only at h1 h2
      rw [← hq, h1, h2, staged_entry]

theorem add_entries_ok (ps : List clif_param_t) (n : Nat) (hlen : n ≤ ps.length)
    (hfit : ∀ p ∈ ps.take n, ((cstr p.key).take p.key_len).length < 32 ∧
      ((cstr p.value).take p.value_len).length < 32) :
    add_entries ps n = .ok ((ps.take n).map staged_entry) := by
  induction n generalizing ps with
  | zero => simp [add_entries]
  | succ n ih =>
    cases ps with
    | nil => simp at hlen
    | cons p ps =>
      have hp := hfit p (by simp)
      have hrest := ih ps (by simpa using hlen) (fun x hx => hfit x (by simp [hx]))
      simp only [add_entries, stage_filter_ok p hp.1 hp.2, hrest, List.take_succ_cons,
        List.map_cons]

theorem add_entries_eq_ok (ps : List clif_param_t) (n : Nat) (qs : List QParam)
    (hq : add_entries ps n = .ok qs) : qs = (ps.take n).map staged_entry := by
  induction n generalizing ps qs with
  | zero =>
    simp only [add_entries, Except.ok.injEq] at hq
    simp [← hq]
  | succ n ih =>
    cases ps with
    | nil => simp [add_entries] at hq
    | cons p ps =>
      simp only [add_entries] at hq
      split at hq
      · exact absurd hq (by simp)
      · rename_i q hstage
        split at hq
        · exact absurd hq (by simp)
        · rename_i rest hrest
          simp only [Except.ok.injEq] at hq
          rw [← hq, stage_filter_eq_ok p q hstage, ih ps rest hrest]
          simp

theorem add_filters_eq_ok (h : Heap) (fuel : Nat) (ptr : Option Nat) (q : List QParam)
    (hq : add_filters h fuel ptr = .ok q) :
    ∃ segs, chain_segments h fuel ptr = some segs ∧ q = staged_query segs := by
  induction fuel generalizing ptr q with
  | zero =>
    cases ptr with
    | none =>
      simp only [add_filters, Except.ok.injEq] at hq
      exact ⟨[], by simp [chain_segments], by simp [← hq, staged_query]⟩
    | some a => simp [add_filters] at hq
  | succ fuel ih =>
    cases ptr with
    | none =>
      simp only [add_filters, Except.ok.injEq] at hq
      exact ⟨[], by simp [chain_segments], by simp [← hq, staged_query]⟩
    | some a =>
      simp only [add_filters] at hq
      split at hq
      · exact absurd hq (by simp)
      · rename_i f hf
        split at hq
        · exact absurd hq (by simp)
        · rename_i qs hqs
          split at hq
          · exact absurd hq (by simp)
          · rename_i rest hrest
            simp only [Except.ok.injEq] at hq
            obtain ⟨segs, hsegs, hrest2⟩ := ih f.next rest hrest
            refine ⟨f :: segs, by simp [chain_segments, hf, hsegs], ?_⟩
            rw [← hq, add_entries_eq_ok _ _ _ hqs, hrest2]
            simp [staged_query]

theorem query_of_returning_lookup (env : gcoap_env) (h : Heap) (fuel : Nat) (g : Globals)
    (rd : cord_lc_rd_t) (lt : lookup_type_t) (ptr : Option Nat) (result : Bytes)
    (maxlen : Nat) (out : lookup_out)
    (hrun : _lookup_raw env h fuel g rd lt ptr result maxlen = .ok out)
    (hinit : 0 ≤ env.req_init) : add_filters h fuel ptr = .ok out.query := by
  simp only [_lookup_raw, not_lt.mpr hinit, if_false] at hrun
  split at hrun
  · exact absurd hrun (by simp)
  · split at hrun
    · exact absurd hrun (by simp)
    · split at hrun
      · exact absurd hrun (by simp)
      · rename_i q hq
        split at hrun
        · simp only [Except.ok.injEq] at hrun
          rw [hq, ← hrun]
        · split at hrun
          · simp only [Except.ok.injEq] at hrun
            rw [hq, ← hrun]
          · split at hrun
            · exact absurd hrun (by simp)
            · simp only [Except.ok.injEq] at hrun
              rw [hq, ← hrun]

theorem add_filters_ok (h : Heap) (fuel : Nat) (ptr : Option Nat)
    (segs : List cord_lc_filter_t)
    (hchain : chain_segments h fuel ptr = some segs)
    (hlen : ∀ f ∈ segs, f.len ≤ f.array.length)
    (hfit : ∀ f ∈ segs, ∀ p ∈ f.array.take f.len,
      ((cstr p.key).take p.key_len).length < 32 ∧
      ((cstr p.value).take p.value_len).length < 32) :
    add_filters h fuel ptr = .ok (staged_query segs) := by
  induction fuel generalizing ptr segs with
  | zero =>
    cases ptr with
    | none =>
      simp only [chain_segments, Option.some.injEq] at hchain
      simp [add_filters, ← hchain, staged_query]
    | some a => simp [chain_segments] at hchain
  | succ fuel ih =>
    cases ptr with
    | none =>
      simp only [chain_segments, Option.some.injEq] at hchain
      simp [add_filters, ← hchain, staged_query]
    | some a =>
      simp only [chain_segments] at hchain
      split at hchain
      · exact absurd hchain (by simp)
      · rename_i f hf
        cases hrest : chain_segments h fuel f.next with
        | none => simp [hrest] at hchain
        | some rest =>
          simp only [hrest, Option.map_some', Option.some.injEq] at hchain
          subst hchain
          have h1 := add_entries_ok f.array f.len (hlen f (by simp)) (hfit f (by simp))
          have h2 := ih f.next rest hrest (fun x hx => hlen x (by simp [hx]))
            (fun x hx => hfit x (by simp [hx]))
          simp only [add_filters, hf, h1, h2]
          simp [staged_query]

/-! ## C5: the query built from a filter chain -/

/-- The chain `cord_lc_res` and `cord_lc_ep` hand to `_lookup_raw`: the head
segment, whose `next` now is the local segment, and the local segment. -/
theorem typed_chain_segments (h : Heap) (a : Nat) (f nf : cord_lc_filter_t) (fuel : Nat)
    (segs : List cord_lc_filter_t) (hf : h[a]? = some f) (hnf : nf.next = none)
    (hsegs : chain_segments (h.set a { f with next := some h.length } ++ [nf]) fuel (some a)
      = some segs) :
    segs = [{ f with next := some h.length }, nf] := by
  have ha : a < h.length := (List.getElem?_eq_some_iff.mp hf).1
  have h1 : (h.set a { f with next := some h.length } ++ [nf])[a]?
      = some { f with next := some h.length } := by
    rw [List.getElem?_append_left (by simpa using ha)]
    exact List.getElem?_set_self ha
  have h2 : (h.set a { f with next := some h.length } ++ [nf])[h.length]? = some nf := by
    rw [List.getElem?_append_right (by simp)]
    simp
  cases fuel with
  | zero => simp [chain_segments] at hsegs
  | succ k =>
    cases k with
    | zero => simp [chain_segments, h1, h2] at hsegs
    | succ k =>
      simp only [chain_segments, h1, h2, hnf, Option.map_some', Option.some.injEq] at hsegs
      exact hsegs.symm

/-- What a returning `cord_lc_res` has done. -/
theorem cord_lc_res_eq_ok (env : gcoap_env) (dec : clif_decode_link_t) (h : Heap) (fuel : Nat)
    (g : Globals) (rd : cord_lc_rd_t) (resource : cord_lc_result_t) (filters : Option Nat)
    (buf : Bytes) (maxlen : Nat) (out : typed_out)
    (hrun : cord_lc_res env dec h fuel g rd resource filters buf maxlen = .ok out) :
    ∃ page pagelen a f lo,
      snprintf 3 maxlen (fmt_u rd.res_last_page) = .ok (page, pagelen) ∧
      filters = some a ∧ h[a]? = some f ∧
      _lookup_raw env (h.set a { f with next := some h.length } ++ [new_filters page pagelen])
        fuel g { rd with res_last_page := uint_succ rd.res_last_page } .CORD_LC_RES
        filters buf maxlen = .ok lo ∧
      out.raw = lo.retval ∧ out.query = lo.query ∧
      out.heap = h.set a { f with next := some h.length } ∧
      out.rd.res_last_page
        = (if lo.retval = CORD_LC_NORSC then 0 else uint_succ rd.res_last_page) ∧
      out.rd.ep_last_page = rd.ep_last_page := by
  simp only [cord_lc_res] at hrun
  split at hrun
  · exact absurd hrun (by simp)
  · rename_i page pagelen hpage
    split at hrun
    · exact absurd hrun (by simp)
    · rename_i a
      split at hrun
      · exact absurd hrun (by simp)
      · rename_i f hf
        split at hrun
        · exact absurd hrun (by simp)
        · rename_i lo hlo
          refine ⟨page, pagelen, a, f, lo, hpage, rfl, hf, hlo, ?_⟩
          split at hrun
          · simp only [Except.ok.injEq] at hrun
            subst hrun
            refine ⟨rfl, rfl, rfl, ?_, ?_⟩
            · by_cases hn : lo.retval = CORD_LC_NORSC <;> simp [hn]
            · by_cases hn : lo.retval = CORD_LC_NORSC <;> simp [hn]
          · rename_i hneg
            simp only [Except.ok.injEq] at hrun
            subst hrun
            have hn : lo.retval ≠ CORD_LC_NORSC := by
              intro hc
              rw [hc] at hneg
              exact hneg (by decide)
            exact ⟨rfl, rfl, rfl, by simp [hn], rfl⟩

/-- What a returning `cord_lc_ep` has done. -/
theorem cord_lc_ep_eq_ok (env : gcoap_env) (dec : clif_decode_link_t) (h : Heap) (fuel : Nat)
    (g : Globals) (rd : cord_lc_rd_t) (endpoint : cord_lc_result_t) (filters : Option Nat)
    (buf : Bytes) (maxlen : Nat) (out : typed_out)
    (hrun : cord_lc_ep env dec h fuel g rd endpoint filters buf maxlen = .ok out) :
    ∃ page pagelen a f lo,
      snprintf 3 maxlen (fmt_u rd.ep_last_page) = .ok (page, pagelen) ∧
      filters = some a ∧ h[a]? = some f ∧
      _lookup_raw env (h.set a { f with next := some h.length } ++ [new_filters page pagelen])
        fuel g { rd with ep_last_page := uint_succ rd.ep_last_page } .CORD_LC_EP
        filters buf maxlen = .ok lo ∧
      out.raw = lo.retval ∧ out.query = lo.query ∧
      out.heap = h.set a { f with next := some h.length } ∧
      out.rd.ep_last_page
        = (if lo.retval = CORD_LC_NORSC then 0 else uint_succ rd.ep_last_page) ∧
      out.rd.res_last_page = rd.res_last_page := by
  simp only [cord_lc_ep] at hrun
  split at hrun
  · exact absurd hrun (by simp)
  · rename_i page pagelen hpage
    split at hrun
    · exact absurd hrun (by simp)
    · rename_i a
      split at hrun
      · exact absurd hrun (by simp)
      · rename_i f hf
        split at hrun
        · exact absurd hrun (by simp)
        · rename_i lo hlo
          refine ⟨page, pagelen, a, f, lo, hpage, rfl, hf, hlo, ?_⟩
          split at hrun
          · simp only [Except.ok.injEq] at hrun
            subst hrun
            refine ⟨rfl, rfl, rfl, ?_, ?_⟩
            · by_cases hn : lo.retval = CORD_LC_NORSC <;> simp [hn]
            · by_cases hn : lo.retval = CORD_LC_NORSC <;> simp [hn]
          · rename_i hneg
            simp only [Except.ok.injEq] at hrun
            subst hrun
            have hn : lo.retval ≠ CORD_LC_NORSC := by
              intro hc
              rw [hc] at hneg
              exact hneg (by decide)
            exact ⟨rfl, rfl, rfl, by simp [hn], rfl⟩

/-- The query of the request a typed lookup builds: the entries of the head
segment of the caller's chain, then `count=1` and `page`. -/
theorem typed_query_of_ok (env : gcoap_env) (h : Heap) (fuel : Nat) (g : Globals)
    (rd : cord_lc_rd_t) (lt : lookup_type_t) (a : Nat) (f : cord_lc_filter_t)
    (page : Bytes) (pagelen : Nat) (buf : Bytes) (maxlen : Nat) (lo : lookup_out)
    (hf : h[a]? = some f) (hinit : 0 ≤ env.req_init)
    (hlo : _lookup_raw env (h.set a { f with next := some h.length }
      ++ [new_filters page pagelen]) fuel g rd lt (some a) buf maxlen = .ok lo) :
    lo.query = (f.array.take f.len).map staged_entry
      ++ [([99, 111, 117, 110, 116], [49]),
          ([112, 97, 103, 101], (cstr (page ++ [0])).take pagelen)] := by
  have hq := query_of_returning_lookup env _ fuel g rd lt (some a) buf maxlen lo hlo hinit
  obtain ⟨segs, hsegs, hquery⟩ := add_filters_eq_ok _ _ _ _ hq
  have hs := typed_chain_segments h a f (new_filters page pagelen) fuel segs hf rfl hsegs
  rw [hquery, hs]
  simp [staged_query, new_filters, staged_entry, cstr]

/-- A raw lookup whose request can be built returns: nothing in it loops, and
the handler stays within a buffer that has the size the caller declared. -/
theorem lookup_raw_returns (env : gcoap_env) (h : Heap) (fuel : Nat) (g : Globals)
    (rd : cord_lc_rd_t) (lt : lookup_type_t) (filters : Option Nat) (result : Bytes)
    (maxlen : Nat) (uri : Bytes) (q : List QParam)
    (hrem : rd.remote ≠ none)
    (huri : select_lookif env.NANOCOAP_QS_MAX rd lt = .ok uri)
    (hq : add_filters h fuel filters = .ok q)
    (hbuf : maxlen ≤ result.length) :
    ∃ out, _lookup_raw env h fuel g rd lt filters result maxlen = .ok out := by
  have h1 : rd.remote.isNone = false := by
    cases hr : rd.remote with
    | none => exact absurd hr hrem
    | some _ => rfl
  have hcb : ∃ r, _on_lookup ⟨some result, maxlen⟩ env.req_state env.ct env.payload = .ok r := by
    simp only [_on_lookup, hbuf, if_true]
    split
    · split
      · exact ⟨_, rfl⟩
      · split
        · exact ⟨_, rfl⟩
        · split
          · exact ⟨_, rfl⟩
          · exact ⟨_, rfl⟩
    · exact ⟨_, rfl⟩
    · exact ⟨_, rfl⟩
  obtain ⟨r, hr⟩ := hcb
  simp only [_lookup_raw, h1, huri, hq, hr, Bool.false_eq_true, if_false]
  split
  · exact ⟨_, rfl⟩
  · split
    · exact ⟨_, rfl⟩
    · split
      · exact ⟨_, rfl⟩
      · exact ⟨_, rfl⟩

/-- The walk over the chain a typed lookup hands to `_lookup_raw` ends after
two segments. -/
theorem typed_chain_walk (h : Heap) (a : Nat) (f : cord_lc_filter_t) (page : Bytes)
    (pagelen k : Nat) (hf : h[a]? = some f) (hlen : f.len ≤ f.array.length)
    (hfit : ∀ p ∈ f.array.take f.len,
      ((cstr p.key).take p.key_len).length < 32 ∧
      ((cstr p.value).take p.value_len).length < 32)
    (hpage : page.length ≤ 2) :
    add_filters (h.set a { f with next := some h.length } ++ [new_filters page pagelen])
      (k + 2) (some a)
      = .ok (staged_query [{ f with next := some h.length }, new_filters page pagelen]) := by
  have ha : a < h.length := (List.getElem?_eq_some_iff.mp hf).1
  have h1 : (h.set a { f with next := some h.length } ++ [new_filters page pagelen])[a]?
      = some { f with next := some h.length } := by
    rw [List.getElem?_append_left (by simpa using ha)]
    exact List.getElem?_set_self ha
  have h2 : (h.set a { f with next := some h.length } ++ [new_filters page pagelen])[h.length]?
      = some (new_filters page pagelen) := by
    rw [List.getElem?_append_right (by simp)]
    simp
  have hcp : (cstr (page ++ [0])).length ≤ 3 := by
    have := (List.takeWhile_sublist (l := page ++ [0]) (fun b => b != 0)).length_le
    simp only [List.length_append, List.length_singleton] at this
    exact le_trans this (by omega)
  have hnf : (new_filters page pagelen).next = none := rfl
  apply add_filters_ok
  · simp only [chain_segments, h1, h2, hnf, Option.map_some']
  · intro x hx
    simp only [List.mem_cons, List.mem_singleton, List.not_mem_nil, or_false] at hx
    rcases hx with hx | hx
    · rw [hx]
      exact hlen
    · rw [hx]
      simp [new_filters]
  · intro x hx
    simp only [List.mem_cons, List.mem_singleton, List.not_mem_nil, or_false] at hx
    rcases hx with hx | hx
    · rw [hx]
      exact hfit
    · rw [hx]
      intro p hp
      simp only [new_filters, List.take_succ_cons, List.take_zero, List.mem_cons,
        List.not_mem_nil, or_false] at hp
      rcases hp with hp | hp
      · rw [hp]
        decide
      · rw [hp]
        refine ⟨?_, ?_⟩
        · show ((cstr [112, 97, 103, 101, 0]).take 5).length < 32
          decide
        · exact lt_of_le_of_lt (List.length_take_le' _ _) (lt_of_le_of_lt hcp (by decide))

/-- A resource lookup on well-formed arguments returns: the cursor fits the
array `page`, the chain has a live head whose entries can be staged, the
interface path fits its staging array, the buffer has the declared size, and
two steps of the chain walk are granted. -/
theorem cord_lc_res_returns (env : gcoap_env) (dec : clif_decode_link_t) (h : Heap)
    (k : Nat) (g : Globals) (rd : cord_lc_rd_t) (r : cord_lc_result_t) (a : Nat)
    (f : cord_lc_filter_t) (buf : Bytes) (maxlen : Nat) (uri : Bytes)
    (hf : h[a]? = some f) (hlen : f.len ≤ f.array.length)
    (hfit : ∀ p ∈ f.array.take f.len,
      ((cstr p.key).take p.key_len).length < 32 ∧
      ((cstr p.value).take p.value_len).length < 32)
    (hrem : rd.remote ≠ none) (hbuf : maxlen ≤ buf.length) (hmax : 0 < maxlen)
    (hpage : ((fmt_u rd.res_last_page).take (maxlen - 1)).length ≤ 2)
    (huri : select_lookif env.NANOCOAP_QS_MAX rd .CORD_LC_RES = .ok uri) :
    ∃ out, cord_lc_res env dec h (k + 2) g rd r (some a) buf maxlen = .ok out := by
  have h0 : maxlen ≠ 0 := Nat.pos_iff_ne_zero.mp hmax
  have hp : ((fmt_u rd.res_last_page).take (maxlen - 1)).length + 1 ≤ 3 := by omega
  have hwalk := typed_chain_walk h a f ((fmt_u rd.res_last_page).take (maxlen - 1))
    (fmt_u rd.res_last_page).length k hf hlen hfit hpage
  obtain ⟨lo, hlo⟩ := lookup_raw_returns env _ (k + 2) g
    { rd with res_last_page := uint_succ rd.res_last_page } .CORD_LC_RES (some a) buf maxlen
    uri _ hrem huri hwalk hbuf
  simp only [cord_lc_res, snprintf, h0, hp, if_false, if_true, hf, hlo]
  split
  · exact ⟨_, rfl⟩
  · exact ⟨_, rfl⟩

/-- An endpoint lookup on well-formed arguments returns. -/
theorem cord_lc_ep_returns (env : gcoap_env) (dec : clif_decode_link_t) (h : Heap)
    (k : Nat) (g : Globals) (rd : cord_lc_rd_t) (r : cord_lc_result_t) (a : Nat)
    (f : cord_lc_filter_t) (buf : Bytes) (maxlen : Nat) (uri : Bytes)
    (hf : h[a]? = some f) (hlen : f.len ≤ f.array.length)
    (hfit : ∀ p ∈ f.array.take f.len,
      ((cstr p.key).take p.key_len).length < 32 ∧
      ((cstr p.value).take p.value_len).length < 32)
    (hrem : rd.remote ≠ none) (hbuf : maxlen ≤ buf.length) (hmax : 0 < maxlen)
    (hpage : ((fmt_u rd.ep_last_page).take (maxlen - 1)).length ≤ 2)
    (huri : select_lookif env.NANOCOAP_QS_MAX rd .CORD_LC_EP = .ok uri) :
    ∃ out, cord_lc_ep env dec h (k + 2) g rd r (some a) buf maxlen = .ok out := by
  have h0 : maxlen ≠ 0 := Nat.pos_iff_ne_zero.mp hmax
  have hp : ((fmt_u rd.ep_last_page).take (maxlen - 1)).length + 1 ≤ 3 := by omega
  have hwalk := typed_chain_walk h a f ((fmt_u rd.ep_last_page).take (maxlen - 1))
    (fmt_u rd.ep_last_page).length k hf hlen hfit hpage
  obtain ⟨lo, hlo⟩ := lookup_raw_returns env _ (k + 2) g
    { rd with ep_last_page := uint_succ rd.ep_last_page } .CORD_LC_EP (some a) buf maxlen
    uri _ hrem huri hwalk hbuf
  simp only [cord_lc_ep, snprintf, h0, hp, if_false, if_true, hf, hlo]
  split
  · exact ⟨_, rfl⟩
  · exact ⟨_, rfl⟩

/-- A resource lookup whose exchange ends in an error flag returns the code
of that flag, which is also what its raw lookup returned. -/
theorem cord_lc_res_error_code (env : gcoap_env) (dec : clif_decode_link_t) (h : Heap)
    (k : Nat) (g : Globals) (rd : cord_lc_rd_t) (r : cord_lc_result_t) (a : Nat)
    (f : cord_lc_filter_t) (buf : Bytes) (maxlen : Nat) (uri : Bytes) (g1 : Globals)
    (flag : Nat)
    (hf : h[a]? = some f) (hlen : f.len ≤ f.array.length)
    (hfit : ∀ p ∈ f.array.take f.len,
      ((cstr p.key).take p.key_len).length < 32 ∧
      ((cstr p.value).take p.value_len).length < 32)
    (hrem : rd.remote ≠ none) (hmax : 0 < maxlen)
    (hpage : ((fmt_u rd.res_last_page).take (maxlen - 1)).length ≤ 2)
    (huri : select_lookif env.NANOCOAP_QS_MAX rd .CORD_LC_RES = .ok uri)
    (hinit : 0 ≤ env.req_init) (hfin : 0 ≤ env.finish) (hsend : 0 ≤ env.send)
    (hcb : _on_lookup ⟨some buf, maxlen⟩ env.req_state env.ct env.payload = .ok (g1, flag))
    (hneg : _sync (flag &&& FLAG_MASK) < 0) :
    (cord_lc_res env dec h (k + 2) g rd r (some a) buf maxlen).map (fun o => (o.retval, o.raw))
      = .ok (_sync (flag &&& FLAG_MASK), _sync (flag &&& FLAG_MASK)) := by
  have h0 : maxlen ≠ 0 := Nat.pos_iff_ne_zero.mp hmax
  have hp : ((fmt_u rd.res_last_page).take (maxlen - 1)).length + 1 ≤ 3 := by omega
  have hwalk := typed_chain_walk h a f ((fmt_u rd.res_last_page).take (maxlen - 1))
    (fmt_u rd.res_last_page).length k hf hlen hfit hpage
  have hlo := lookup_raw_exchange env _ (k + 2) g
    { rd with res_last_page := uint_succ rd.res_last_page } .CORD_LC_RES (some a) buf maxlen
    uri _ g1 flag hrem huri hinit hwalk hfin hsend hcb
  have hne : _sync (flag &&& FLAG_MASK) ≠ CORD_LC_OK := by
    intro hc
    rw [hc] at hneg
    exact absurd hneg (by decide)
  simp only [cord_lc_res, snprintf, h0, hp, if_false, if_true, hf, hlo, hne, hneg, Except.map]

/-- An endpoint lookup whose exchange ends in an error flag returns the code
of that flag, which is also what its raw lookup returned. -/
theorem cord_lc_ep_error_code (env : gcoap_env) (dec : clif_decode_link_t) (h : Heap)
    (k : Nat) (g : Globals) (rd : cord_lc_rd_t) (r : cord_lc_result_t) (a : Nat)
    (f : cord_lc_filter_t) (buf : Bytes) (maxlen : Nat) (uri : Bytes) (g1 : Globals)
    (flag : Nat)
    (hf : h[a]? = some f) (hlen : f.len ≤ f.array.length)
    (hfit : ∀ p ∈ f.array.take f.len,
      ((cstr p.key).take p.key_len).length < 32 ∧
      ((cstr p.value).take p.value_len).length < 32)
    (hrem : rd.remote ≠ none) (hmax : 0 < maxlen)
    (hpage : ((fmt_u rd.ep_last_page).take (maxlen - 1)).length ≤ 2)
    (huri : select_lookif env.NANOCOAP_QS_MAX rd .CORD_LC_EP = .ok uri)
    (hinit : 0 ≤ env.req_init) (hfin : 0 ≤ env.finish) (hsend : 0 ≤ env.send)
    (hcb : _on_lookup ⟨some buf, maxlen⟩ env.req_state env.ct env.payload = .ok (g1, flag))
    (hneg : _sync (flag &&& FLAG_MASK) < 0) :
    (cord_lc_ep env dec h (k + 2) g rd r (some a) buf maxlen).map (fun o => (o.retval, o.raw))
      = .ok (_sync (flag &&& FLAG_MASK), _sync (flag &&& FLAG_MASK)) := by
  have h0 : maxlen ≠ 0 := Nat.pos_iff_ne_zero.mp hmax
  have hp : ((fmt_u rd.ep_last_page).take (maxlen - 1)).length + 1 ≤ 3 := by omega
  have hwalk := typed_chain_walk h a f ((fmt_u rd.ep_last_page).take (maxlen - 1))
    (fmt_u rd.ep_last_page).length k hf hlen hfit hpage
  have hlo := lookup_raw_exchange env _ (k + 2) g
    { rd with ep_last_page := uint_succ rd.ep_last_page } .CORD_LC_EP (some a) buf maxlen
    uri _ g1 flag hrem huri hinit hwalk hfin hsend hcb
  have hne : _sync (flag &&& FLAG_MASK) ≠ CORD_LC_OK := by
    intro hc
    rw [hc] at hneg
    exact absurd hneg (by decide)
  simp only [cord_lc_ep, snprintf, h0, hp, if_false, if_true, hf, hlo, hne, hneg, Except.map]

/-! ## C7: classification of responses -/

/-- C7, as stated, fails for the lookup handler: a response to a raw lookup
whose media type is not link-format (here content type 0 with the payload
`</x>`) is classified as `CORD_LC_ERR`, not as `CORD_LC_NORSC`. -/
theorem raw_lookup_wrong_media_type_is_err :
    (cord_lc_raw ⟨64, 0, 24, 24, .GCOAP_MEMO_RESP, 0, record_x.1⟩ [⟨[filter_ep], 1, none⟩] 1
        ⟨none, 0⟩ (example_rd 0 0) .CORD_LC_RES (some 0) [7, 7, 7, 7, 7] 5).map
        (fun o => o.retval) = .ok CORD_LC_ERR ∧
    CORD_LC_ERR ≠ CORD_LC_NORSC := by
  decide

/-- C7, amended: for every exchange that was built and sent, in bootstrap
(handler `_on_rd_init`) a response that is not link-format or has an empty
payload is `CORD_LC_NORSC`; in a raw or typed lookup (handler `_on_lookup`) a
link-format response with an empty payload is `CORD_LC_NORSC` while a
response that is not link-format is `CORD_LC_ERR`; a timeout is
`CORD_LC_TIMEOUT` in all of them; the operation returns that code
unmodified: `cord_lc_rd_init` and `cord_lc_raw` return it, and `cord_lc_res`
and `cord_lc_ep`, called on well-formed arguments, return it as the code of
their raw lookup and as their own. -/
theorem response_classification (base : gcoap_env) (dec : clif_decode_link_t) (fuel : Nat)
    (h : Heap) (g : Globals) (rd rd0 : cord_lc_rd_t) (remote : Option Nat)
    (lt : lookup_type_t) (filters : Option Nat) (buf result : Bytes) (maxlen n : Nat)
    (uri : Bytes) (q : List QParam)
    (hremote : remote ≠ none) (hbuf : maxlen ≤ buf.length)
    (hrem : rd.remote ≠ none)
    (huri : select_lookif base.NANOCOAP_QS_MAX rd lt = .ok uri)
    (hq : add_filters h fuel filters = .ok q)
    (hinit : 0 ≤ base.req_init) (hfin : 0 ≤ base.finish) (hsend : 0 < base.send) :
    (∀ ct payload, ct ≠ COAP_FORMAT_LINK ∨ payload = [] →
      cord_lc_rd_init { base with req_state := .GCOAP_MEMO_RESP, ct := ct, payload := payload }
          dec fuel rd0 remote buf maxlen
        = .ok ⟨CORD_LC_NORSC, { rd0 with remote := remote }, [], ⟨none, 0⟩⟩) ∧
    (∀ ct payload,
      cord_lc_rd_init { base with req_state := .GCOAP_MEMO_TIMEOUT, ct := ct, payload := payload }
          dec fuel rd0 remote buf maxlen
        = .ok ⟨CORD_LC_TIMEOUT, { rd0 with remote := remote }, [], ⟨none, 0⟩⟩) ∧
    (cord_lc_raw { base with req_state := .GCOAP_MEMO_RESP, ct := COAP_FORMAT_LINK, payload := [] }
          h fuel g rd lt filters result n
        = .ok ⟨CORD_LC_NORSC, uri, q, result, ⟨some result, n⟩⟩) ∧
    (∀ ct payload, ct ≠ COAP_FORMAT_LINK →
      cord_lc_raw { base with req_state := .GCOAP_MEMO_RESP, ct := ct, payload := payload }
          h fuel g rd lt filters result n
        = .ok ⟨CORD_LC_ERR, uri, q, result, ⟨some result, n⟩⟩) ∧
    (∀ ct payload,
      cord_lc_raw { base with req_state := .GCOAP_MEMO_TIMEOUT, ct := ct, payload := payload }
          h fuel g rd lt filters result n
        = .ok ⟨CORD_LC_TIMEOUT, uri, q, result, ⟨some result, n⟩⟩) ∧
    (∀ (k a : Nat) (f : cord_lc_filter_t) (resource : cord_lc_result_t) (uri_res : Bytes),
      h[a]? = some f → f.len ≤ f.array.length →
      (∀ p ∈ f.array.take f.len,
        ((cstr p.key).take p.key_len).length < 32 ∧
        ((cstr p.value).take p.value_len).length < 32) →
      0 < maxlen → ((fmt_u rd.res_last_page).take (maxlen - 1)).length ≤ 2 →
      select_lookif base.NANOCOAP_QS_MAX rd .CORD_LC_RES = .ok uri_res →
      ((cord_lc_res
            { base with req_state := .GCOAP_MEMO_RESP, ct := COAP_FORMAT_LINK, payload := [] }
            dec h (k + 2) g rd resource (some a) buf maxlen).map (fun o => (o.retval, o.raw))
          = .ok (CORD_LC_NORSC, CORD_LC_NORSC)) ∧
      (∀ ct payload, ct ≠ COAP_FORMAT_LINK →
        (cord_lc_res { base with req_state := .GCOAP_MEMO_RESP, ct := ct, payload := payload }
            dec h (k + 2) g rd resource (some a) buf maxlen).map (fun o => (o.retval, o.raw))
          = .ok (CORD_LC_ERR, CORD_LC_ERR)) ∧
      (∀ ct payload,
        (cord_lc_res { base with req_state := .GCOAP_MEMO_TIMEOUT, ct := ct, payload := payload }
            dec h (k + 2) g rd resource (some a) buf maxlen).map (fun o => (o.retval, o.raw))
          = .ok (CORD_LC_TIMEOUT, CORD_LC_TIMEOUT))) ∧
    (∀ (k a : Nat) (f : cord_lc_filter_t) (endpoint : cord_lc_result_t) (uri_ep : Bytes),
      h[a]? = some f → f.len ≤ f.array.length →
      (∀ p ∈ f.array.take f.len,
        ((cstr p.key).take p.key_len).length < 32 ∧
        ((cstr p.value).take p.value_len).length < 32) →
      0 < maxlen → ((fmt_u rd.ep_last_page).take (maxlen - 1)).length ≤ 2 →
      select_lookif base.NANOCOAP_QS_MAX rd .CORD_LC_EP = .ok uri_ep →
      ((cord_lc_ep
            { base with req_state := .GCOAP_MEMO_RESP, ct := COAP_FORMAT_LINK, payload := [] }
            dec h (k + 2) g rd endpoint (some a) buf maxlen).map (fun o => (o.retval, o.raw))
          = .ok (CORD_LC_NORSC, CORD_LC_NORSC)) ∧
      (∀ ct payload, ct ≠ COAP_FORMAT_LINK →
        (cord_lc_ep { base with req_state := .GCOAP_MEMO_RESP, ct := ct, payload := payload }
            dec h (k + 2) g rd endpoint (some a) buf maxlen).map (fun o => (o.retval, o.raw))
          = .ok (CORD_LC_ERR, CORD_LC_ERR)) ∧
      (∀ ct payload,
        (cord_lc_ep { base with req_state := .GCOAP_MEMO_TIMEOUT, ct := ct, payload := payload }
            dec h (k + 2) g rd endpoint (some a) buf maxlen).map (fun o => (o.retval, o.raw))
          = .ok (CORD_LC_TIMEOUT, CORD_LC_TIMEOUT))) := by
  have hbuf2 : ¬ buf.length < maxlen := not_lt.mpr hbuf
  have hr : remote.isNone = false := by
    cases hr : remote with
    | none => exact absurd hr hremote
    | some _ => rfl
  have hs0 : base.send ≠ 0 := ne_of_gt hsend
  have hnorsc : _sync (FLAG_NORSC &&& FLAG_MASK) < 0 := by decide
  have herr : _sync (FLAG_ERR &&& FLAG_MASK) < 0 := by decide
  have htimeout : _sync (FLAG_TIMEOUT &&& FLAG_MASK) < 0 := by decide
  refine ⟨?_, ?_, ?_, ?_, ?_, ?_, ?_⟩
  · intro ct payload hc
    have hcb : _on_rd_init ⟨some (List.replicate maxlen 48 ++ buf.drop maxlen), maxlen⟩
        .GCOAP_MEMO_RESP ct payload = .ok (⟨none, 0⟩, FLAG_NORSC) := by
      rcases hc with hc | hc
      · simp [_on_rd_init, hc]
      · simp [_on_rd_init, hc]
    simp only [cord_lc_rd_init, _send_rd_init_req, hr, hbuf2, hcb, not_lt.mpr hinit,
      not_lt.mpr hfin, hs0, if_false, Bool.false_eq_true, sync_norsc]
    simp [CORD_LC_NORSC, CORD_LC_OK]
  · intro ct payload
    simp only [cord_lc_rd_init, _send_rd_init_req, hr, hbuf2, _on_rd_init, not_lt.mpr hinit,
      not_lt.mpr hfin, hs0, if_false, Bool.false_eq_true, sync_timeout]
    simp [CORD_LC_TIMEOUT, CORD_LC_OK]
  · rw [cord_lc_raw, lookup_raw_exchange
      { base with req_state := .GCOAP_MEMO_RESP, ct := COAP_FORMAT_LINK, payload := [] }
      h fuel g rd lt filters result n uri q
      ⟨some result, n⟩ FLAG_NORSC hrem huri hinit hq hfin (le_of_lt hsend)
      (by simp [_on_lookup]), sync_norsc]
    simp [CORD_LC_NORSC, CORD_LC_OK]
  · intro ct payload hc
    rw [cord_lc_raw, lookup_raw_exchange
      { base with req_state := .GCOAP_MEMO_RESP, ct := ct, payload := payload }
      h fuel g rd lt filters result n uri q
      ⟨some result, n⟩ FLAG_ERR hrem huri hinit hq hfin (le_of_lt hsend)
      (by simp [_on_lookup, hc]), sync_err]
    simp [CORD_LC_ERR, CORD_LC_OK]
  · intro ct payload
    rw [cord_lc_raw, lookup_raw_exchange
      { base with req_state := .GCOAP_MEMO_TIMEOUT, ct := ct, payload := payload }
      h fuel g rd lt filters result n uri q
      ⟨some result, n⟩ FLAG_TIMEOUT hrem huri hinit hq hfin (le_of_lt hsend)
      (by simp [_on_lookup]), sync_timeout]
    simp [CORD_LC_TIMEOUT, CORD_LC_OK]
  · intro k a f resource uri_res hf hlen hfit hmax hpage hures
    refine ⟨?_, ?_, ?_⟩
    · have t := cord_lc_res_error_code
        { base with req_state := .GCOAP_MEMO_RESP, ct := COAP_FORMAT_LINK, payload := [] }
        dec h k g rd resource a f buf maxlen uri_res ⟨some buf, maxlen⟩ FLAG_NORSC
        hf hlen hfit hrem hmax hpage hures hinit hfin (le_of_lt hsend)
        (by simp [_on_lookup]) hnorsc
      rw [sync_norsc] at t
      exact t
    · intro ct payload hc
      have t := cord_lc_res_error_code
        { base with req_state := .GCOAP_MEMO_RESP, ct := ct, payload := payload }
        dec h k g rd resource a f buf maxlen uri_res ⟨some buf, maxlen⟩ FLAG_ERR
        hf hlen hfit hrem hmax hpage hures hinit hfin (le_of_lt hsend)
        (by simp [_on_lookup, hc]) herr
      rw [sync_err] at t
      exact t
    · intro ct payload
      have t := cord_lc_res_error_code
        { base with req_state := .GCOAP_MEMO_TIMEOUT, ct := ct, payload := payload }
        dec h k g rd resource a f buf maxlen uri_res ⟨some buf, maxlen⟩ FLAG_TIMEOUT
        hf hlen hfit hrem hmax hpage hures hinit hfin (le_of_lt hsend)
        (by simp [_on_lookup]) htimeout
      rw [sync_timeout] at t
      exact t
  · intro k a f endpoint uri_ep hf hlen hfit hmax hpage hures
    refine ⟨?_, ?_, ?_⟩
    · have t := cord_lc_ep_error_code
        { base with req_state := .GCOAP_MEMO_RESP, ct := COAP_FORMAT_LINK, payload := [] }
        dec h k g rd endpoint a f buf maxlen uri_ep ⟨some buf, maxlen⟩ FLAG_NORSC
        hf hlen hfit hrem hmax hpage hures hinit hfin (le_of_lt hsend)
        (by simp [_on_lookup]) hnorsc
      rw [sync_norsc] at t
      exact t
    · intro ct payload hc
      have t := cord_lc_ep_error_code
        { base with req_state := .GCOAP_MEMO_RESP, ct := ct, payload := payload }
        dec h k g rd endpoint a f buf maxlen uri_ep ⟨some buf, maxlen⟩ FLAG_ERR
        hf hlen hfit hrem hmax hpage hures hinit hfin (le_of_lt hsend)
        (by simp [_on_lookup, hc]) herr
      rw [sync_err] at t
      exact t
    · intro ct payload
      have t := cord_lc_ep_error_code
        { base with req_state := .GCOAP_MEMO_TIMEOUT, ct := ct, payload := payload }
        dec h k g rd endpoint a f buf maxlen uri_ep ⟨some buf, maxlen⟩ FLAG_TIMEOUT
        hf hlen hfit hrem hmax hpage hures hinit hfin (le_of_lt hsend)
        (by simp [_on_lookup]) htimeout
      rw [sync_timeout] at t
      exact t

/-- The amended C7 with the scratch buffer of 8 bytes, the chain `ep=n1` and
the cursors 5 and 3: a bootstrap answered with content type 0, or with an
empty link-format payload, returns `CORD_LC_NORSC`; a raw lookup, a resource
lookup and an endpoint lookup answered with an empty link-format payload
return `CORD_LC_NORSC`, answered with content type 0 they return
`CORD_LC_ERR`; a timeout is `CORD_LC_TIMEOUT` in all four. -/
theorem response_classification_witness :
    (cord_lc_rd_init ⟨64, 0, 24, 24, .GCOAP_MEMO_RESP, 0, record_x.1⟩ (example_codec [record_x])
        2 empty_rd (some 1) scratch8 8
      = .ok ⟨CORD_LC_NORSC, { empty_rd with remote := some 1 }, [], ⟨none, 0⟩⟩ ∧
     cord_lc_rd_init ⟨64, 0, 24, 24, .GCOAP_MEMO_RESP, COAP_FORMAT_LINK, []⟩
        (example_codec [record_x]) 2 empty_rd (some 1) scratch8 8
      = .ok ⟨CORD_LC_NORSC, { empty_rd with remote := some 1 }, [], ⟨none, 0⟩⟩) ∧
    cord_lc_rd_init ⟨64, 0, 24, 24, .GCOAP_MEMO_TIMEOUT, 0, []⟩ (example_codec [record_x])
        2 empty_rd (some 1) scratch8 8
      = .ok ⟨CORD_LC_TIMEOUT, { empty_rd with remote := some 1 }, [], ⟨none, 0⟩⟩ ∧
    cord_lc_raw ⟨64, 0, 24, 24, .GCOAP_MEMO_RESP, COAP_FORMAT_LINK, []⟩ chain_one 2 ⟨none, 0⟩
        (example_rd 5 3) .CORD_LC_RES (some 0) scratch8 8
      = .ok ⟨CORD_LC_NORSC, [47, 114], [([101, 112], [110, 49])], scratch8,
             ⟨some scratch8, 8⟩⟩ ∧
    cord_lc_raw ⟨64, 0, 24, 24, .GCOAP_MEMO_RESP, 0, record_x.1⟩ chain_one 2 ⟨none, 0⟩
        (example_rd 5 3) .CORD_LC_RES (some 0) scratch8 8
      = .ok ⟨CORD_LC_ERR, [47, 114], [([101, 112], [110, 49])], scratch8,
             ⟨some scratch8, 8⟩⟩ ∧
    cord_lc_raw ⟨64, 0, 24, 24, .GCOAP_MEMO_TIMEOUT, 0, []⟩ chain_one 2 ⟨none, 0⟩
        (example_rd 5 3) .CORD_LC_RES (some 0) scratch8 8
      = .ok ⟨CORD_LC_TIMEOUT, [47, 114], [([101, 112], [110, 49])], scratch8,
             ⟨some scratch8, 8⟩⟩ ∧
    ((cord_lc_res ⟨64, 0, 24, 24, .GCOAP_MEMO_RESP, COAP_FORMAT_LINK, []⟩
          (example_codec [record_x]) chain_one 2 ⟨none, 0⟩ (example_rd 5 3) empty_result
          (some 0) scratch8 8).map (fun o => (o.retval, o.raw))
        = .ok (CORD_LC_NORSC, CORD_LC_NORSC) ∧
     (cord_lc_res ⟨64, 0, 24, 24, .GCOAP_MEMO_RESP, 0, record_x.1⟩
          (example_codec [record_x]) chain_one 2 ⟨none, 0⟩ (example_rd 5 3) empty_result
          (some 0) scratch8 8).map (fun o => (o.retval, o.raw))
        = .ok (CORD_LC_ERR, CORD_LC_ERR) ∧
     (cord_lc_res ⟨64, 0, 24, 24, .GCOAP_MEMO_TIMEOUT, 0, []⟩
          (example_codec [record_x]) chain_one 2 ⟨none, 0⟩ (example_rd 5 3) empty_result
          (some 0) scratch8 8).map (fun o => (o.retval, o.raw))
        = .ok (CORD_LC_TIMEOUT, CORD_LC_TIMEOUT)) ∧
    ((cord_lc_ep ⟨64, 0, 24, 24, .GCOAP_MEMO_RESP, COAP_FORMAT_LINK, []⟩
          (example_codec [record_x]) chain_one 2 ⟨none, 0⟩ (example_rd 5 3) empty_result
          (some 0) scratch8 8).map (fun o => (o.retval, o.raw))
        = .ok (CORD_LC_NORSC, CORD_LC_NORSC) ∧
     (cord_lc_ep ⟨64, 0, 24, 24, .GCOAP_MEMO_RESP, 0, record_x.1⟩
          (example_codec [record_x]) chain_one 2 ⟨none, 0⟩ (example_rd 5 3) empty_result
          (some 0) scratch8 8).map (fun o => (o.retval, o.raw))
        = .ok (CORD_LC_ERR, CORD_LC_ERR) ∧
     (cord_lc_ep ⟨64, 0, 24, 24, .GCOAP_MEMO_TIMEOUT, 0, []⟩
          (example_codec [record_x]) chain_one 2 ⟨none, 0⟩ (example_rd 5 3) empty_result
          (some 0) scratch8 8).map (fun o => (o.retval, o.raw))
        = .ok (CORD_LC_TIMEOUT, CORD_LC_TIMEOUT)) :=
  have t := response_classification (env_response []) (example_codec [record_x]) 2 chain_one
    ⟨none, 0⟩ (example_rd 5 3) empty_rd (some 1) .CORD_LC_RES (some 0) scratch8 scratch8 8 8
    [47, 114] [([101, 112], [110, 49])] (by decide) (by decide) (by decide) (by decide)
    (by decide) (by decide) (by decide) (by decide)
  have tres := t.2.2.2.2.2.1 0 0 ⟨[filter_ep], 1, none⟩ empty_result [47, 114]
    (by decide) (by decide) (by decide) (by decide) (by decide) (by decide)
  have tep := t.2.2.2.2.2.2 0 0 ⟨[filter_ep], 1, none⟩ empty_result [47, 101]
    (by decide) (by decide) (by decide) (by decide) (by decide) (by decide)
  ⟨⟨t.1 0 record_x.1 (Or.inl (by decide)), t.1 COAP_FORMAT_LINK [] (Or.inr rfl)⟩,
   t.2.1 0 [], t.2.2.1, t.2.2.2.1 0 record_x.1 (by decide), t.2.2.2.2.1 0 [],
   ⟨tres.1, tres.2.1 0 record_x.1 (by decide), tres.2.2 0 []⟩,
   ⟨tep.1, tep.2.1 0 record_x.1 (by decide), tep.2.2 0 []⟩⟩

/-! ## C1: the page cursor -/

/-- C1, as stated, fails: a `cord_lc_res` call whose raw lookup ends in
`CORD_LC_TIMEOUT`, started with the resource cursor at 5, returns with the
cursor at 6, not at the previous value 5. -/
theorem cursor_advances_on_timeout :
    (example_rd 5 3).res_last_page = 5 ∧
    (cord_lc_res env_timeout (example_codec [record_x]) chain_one 2 ⟨none, 0⟩ (example_rd 5 3)
        empty_result (some 0) scratch8 8).map (fun o => (o.raw, o.rd.res_last_page))
      = .ok (CORD_LC_TIMEOUT, 6) := by
  decide

/-- C1, amended: whenever a `cord_lc_res` call returns, the resource page
cursor is 0 if the raw lookup outcome is `CORD_LC_NORSC` and the previous
value plus one (as an `unsigned`) for every other outcome, success and
`TIMEOUT`, `ERR`, `OVERFLOW` or a failure to decode alike, and the endpoint
cursor is unchanged; likewise, whenever a `cord_lc_ep` call returns, with the
two cursors exchanged.  Each half holds for its call alone. -/
theorem page_cursor_after_typed_lookup (env : gcoap_env) (dec : clif_decode_link_t)
    (h : Heap) (fuel : Nat) (g : Globals) (rd : cord_lc_rd_t) (r : cord_lc_result_t)
    (filters : Option Nat) (buf : Bytes) (maxlen : Nat) (out : typed_out) :
    (cord_lc_res env dec h fuel g rd r filters buf maxlen = .ok out →
      out.rd.res_last_page
          = (if out.raw = CORD_LC_NORSC then 0 else uint_succ rd.res_last_page) ∧
      out.rd.ep_last_page = rd.ep_last_page) ∧
    (cord_lc_ep env dec h fuel g rd r filters buf maxlen = .ok out →
      out.rd.ep_last_page
          = (if out.raw = CORD_LC_NORSC then 0 else uint_succ rd.ep_last_page) ∧
      out.rd.res_last_page = rd.res_last_page) := by
  constructor
  · intro hres
    obtain ⟨_, _, _, _, lo, _, _, _, _, hraw, _, _, hcur, hother⟩ :=
      cord_lc_res_eq_ok env dec h fuel g rd r filters buf maxlen out hres
    rw [hraw]
    exact ⟨hcur, hother⟩
  · intro hep
    obtain ⟨_, _, _, _, lo, _, _, _, _, hraw, _, _, hcur, hother⟩ :=
      cord_lc_ep_eq_ok env dec h fuel g rd r filters buf maxlen out hep
    rw [hraw]
    exact ⟨hcur, hother⟩

/-- The amended C1 on single calls.  From the cursors 5 (resource) and 3
(endpoint): a resource lookup answered with the record `</x>` leaves them at
6 and 3, an endpoint lookup at 5 and 4; answered with an empty payload
(`CORD_LC_NORSC`) the resource lookup leaves them at 0 and 3, the endpoint
lookup at 5 and 0.  From the cursors 5 and 100, where an endpoint lookup
would overrun `page`, a resource lookup that times out leaves them at 6 and
100. -/
theorem page_cursor_after_typed_lookup_witness :
    (((example_rd 6 3).res_last_page = uint_succ 5 ∧ (example_rd 6 3).ep_last_page = 3) ∧
     ((example_rd 5 4).ep_last_page = uint_succ 3 ∧ (example_rd 5 4).res_last_page = 5)) ∧
    (((example_rd 0 3).res_last_page = 0 ∧ (example_rd 0 3).ep_last_page = 3) ∧
     ((example_rd 5 0).ep_last_page = 0 ∧ (example_rd 5 0).res_last_page = 5)) ∧
    (cord_lc_ep env_timeout (example_codec [record_x]) chain_one 2 ⟨none, 0⟩ (example_rd 5 100)
        empty_result (some 0) scratch8 8 = .error .undefined ∧
     (example_rd 6 100).res_last_page = uint_succ 5 ∧ (example_rd 6 100).ep_last_page = 100) :=
  ⟨⟨(page_cursor_after_typed_lookup (env_response record_x.1) (example_codec [record_x])
       chain_one 2 ⟨none, 0⟩ (example_rd 5 3) empty_result (some 0) scratch8 8
       out_res_success).1 (by decide),
    (page_cursor_after_typed_lookup (env_response record_x.1) (example_codec [record_x])
       chain_one 2 ⟨none, 0⟩ (example_rd 5 3) empty_result (some 0) scratch8 8
       out_ep_success).2 (by decide)⟩,
   ⟨(page_cursor_after_typed_lookup (env_response []) (example_codec [record_x])
       chain_one 2 ⟨none, 0⟩ (example_rd 5 3) empty_result (some 0) scratch8 8
       out_res_norsc).1 (by decide),
    (page_cursor_after_typed_lookup (env_response []) (example_codec [record_x])
       chain_one 2 ⟨none, 0⟩ (example_rd 5 3) empty_result (some 0) scratch8 8
       out_ep_norsc).2 (by decide)⟩,
   ⟨by decide,
    (page_cursor_after_typed_lookup env_timeout (example_codec [record_x])
       chain_one 2 ⟨none, 0⟩ (example_rd 5 100) empty_result (some 0) scratch8 8
       { out_res_timeout with rd := example_rd 6 100 }).1 (by decide)⟩⟩

/-! ## C6: the page filter -/

/-- C6: the array `page` has 3 bytes, while `snprintf` is given the size of the
caller's buffer as bound.  Whenever the cursor has three decimal digits or
more and the caller's buffer has 4 bytes or more, `cord_lc_res` writes beyond
`page`: the call is undefined, no `page=100` is sent. -/
theorem page_array_overrun (env : gcoap_env) (dec : clif_decode_link_t) (h : Heap)
    (fuel : Nat) (g : Globals) (rd : cord_lc_rd_t) (r : cord_lc_result_t)
    (filters : Option Nat) (buf : Bytes) (maxlen : Nat)
    (hmax : 4 ≤ maxlen) (hdigits : 3 ≤ (fmt_u rd.res_last_page).length) :
    cord_lc_res env dec h fuel g rd r filters buf maxlen = .error .undefined := by
  have h0 : maxlen ≠ 0 := by omega
  have h1 : ¬ ((fmt_u rd.res_last_page).take (maxlen - 1)).length + 1 ≤ 3 := by
    rw [List.length_take]
    omega
  simp only [cord_lc_res, snprintf, h0, h1, if_false]

/-- The overrun at the 101st call: cursor 100, rendered `100`, with the
8-byte scratch buffer. -/
theorem page_array_overrun_witness :
    fmt_u 100 = [49, 48, 48] ∧
    cord_lc_res (env_response record_x.1) (example_codec [record_x]) chain_one 2 ⟨none, 0⟩
      (example_rd 100 0) empty_result (some 0) scratch8 8 = .error .undefined :=
  ⟨by decide,
   page_array_overrun (env_response record_x.1) (example_codec [record_x]) chain_one 2
     ⟨none, 0⟩ (example_rd 100 0) empty_result (some 0) scratch8 8 (by decide) (by decide)⟩

/-- The sequence of the specification below the overrun: from cursor 0, three
successful `cord_lc_res` calls send `page=0`, `page=1`, `page=2` after
`ep=n1` and `count=1`; the fourth, answered with an empty payload
(`CORD_LC_NORSC`), sends `page=3` and resets the cursor; the fifth sends
`page=0` again and leaves the cursor at 1. -/
theorem first_pages_then_reset :
    res_calls (example_codec [record_x]) 2 empty_result (some 0) 8
        [env_response record_x.1, env_response record_x.1, env_response record_x.1,
         env_response [], env_response record_x.1]
        chain_one ⟨none, 0⟩ (example_rd 0 0) scratch8
      = .ok ([[([101, 112], [110, 49]), ([99, 111, 117, 110, 116], [49]), ([112, 97, 103, 101], [48])],
              [([101, 112], [110, 49]), ([99, 111, 117, 110, 116], [49]), ([112, 97, 103, 101], [49])],
              [([101, 112], [110, 49]), ([99, 111, 117, 110, 116], [49]), ([112, 97, 103, 101], [50])],
              [([101, 112], [110, 49]), ([99, 111, 117, 110, 116], [49]), ([112, 97, 103, 101], [51])],
              [([101, 112], [110, 49]), ([99, 111, 117, 110, 116], [49]), ([112, 97, 103, 101], [48])]],
             example_rd 1 0) := by
  decide

/-! ## C8 and C9: the caller's filter chain -/

/-- C8: whenever `cord_lc_res` or `cord_lc_ep` returns, the `next` link of the
head segment of the caller's chain holds the address of the local segment
`new_filters`, an object that no longer exists; it is not restored. -/
theorem typed_lookup_leaves_link (env : gcoap_env) (dec : clif_decode_link_t) (h : Heap)
    (fuel : Nat) (g : Globals) (rd : cord_lc_rd_t) (r : cord_lc_result_t) (a : Nat)
    (f : cord_lc_filter_t) (buf : Bytes) (maxlen : Nat) (out : typed_out)
    (hf : h[a]? = some f)
    (hrun : cord_lc_res env dec h fuel g rd r (some a) buf maxlen = .ok out ∨
            cord_lc_ep env dec h fuel g rd r (some a) buf maxlen = .ok out) :
    out.heap = h.set a { f with next := some h.length } ∧
    out.heap[a]?.map (fun s => s.next) = some (some h.length) ∧
    out.heap[h.length]? = none := by
  have ha : a < h.length := (List.getElem?_eq_some_iff.mp hf).1
  have hheap : out.heap = h.set a { f with next := some h.length } := by
    rcases hrun with hrun | hrun
    · obtain ⟨_, _, a2, f2, _, _, ha2, hf2, _, _, _, hheap, _, _⟩ :=
        cord_lc_res_eq_ok env dec h fuel g rd r (some a) buf maxlen out hrun
      simp only [Option.some.injEq] at ha2
      subst ha2
      rw [hf] at hf2
      simp only [Option.some.injEq] at hf2
      subst hf2
      exact hheap
    · obtain ⟨_, _, a2, f2, _, _, ha2, hf2, _, _, _, hheap, _, _⟩ :=
        cord_lc_ep_eq_ok env dec h fuel g rd r (some a) buf maxlen out hrun
      simp only [Option.some.injEq] at ha2
      subst ha2
      rw [hf] at hf2
      simp only [Option.some.injEq] at hf2
      subst hf2
      exact hheap
  refine ⟨hheap, ?_, ?_⟩
  · rw [hheap, List.getElem?_set_self ha]
    rfl
  · rw [hheap]
    simp

/-- The dangling link on a chain of one segment whose `next` was `NULL`
before the call: after the call it is the address 1, where nothing lives. -/
theorem typed_lookup_leaves_link_witness :
    chain_one[0]?.map (fun s => s.next) = some none ∧
    out_res_one.heap[0]?.map (fun s => s.next) = some (some 1) ∧
    out_res_one.heap[1]? = none :=
  ⟨by decide,
   (typed_lookup_leaves_link (env_response record_x.1) (example_codec [record_x]) chain_one 2
      ⟨none, 0⟩ (example_rd 0 0) empty_result 0 ⟨[filter_ep], 1, none⟩ scratch8 8 out_res_one
      (by decide) (Or.inl (by decide))).2⟩

/-- C9: whenever `cord_lc_res` or `cord_lc_ep` returns after building its
request, the query consists of the entries of the head segment of the
caller's chain followed by `count=1` and `page`; the segments that followed
the head in the caller's chain contribute nothing. -/
theorem typed_lookup_query_head_only (env : gcoap_env) (dec : clif_decode_link_t) (h : Heap)
    (fuel : Nat) (g : Globals) (rd : cord_lc_rd_t) (r : cord_lc_result_t) (a : Nat)
    (f : cord_lc_filter_t) (buf : Bytes) (maxlen : Nat) (out : typed_out)
    (hf : h[a]? = some f) (hinit : 0 ≤ env.req_init)
    (hrun : cord_lc_res env dec h fuel g rd r (some a) buf maxlen = .ok out ∨
            cord_lc_ep env dec h fuel g rd r (some a) buf maxlen = .ok out) :
    ∃ page, out.query = (f.array.take f.len).map staged_entry
      ++ [([99, 111, 117, 110, 116], [49]), ([112, 97, 103, 101], page)] := by
  rcases hrun with hrun | hrun
  · obtain ⟨page, pagelen, a2, f2, lo, _, ha2, hf2, hlo, _, hquery, _, _, _⟩ :=
      cord_lc_res_eq_ok env dec h fuel g rd r (some a) buf maxlen out hrun
    simp only [Option.some.injEq] at ha2
    subst ha2
    rw [hf] at hf2
    simp only [Option.some.injEq] at hf2
    subst hf2
    exact ⟨_, hquery.trans (typed_query_of_ok env h fuel g _ _ a f page pagelen buf maxlen lo
      hf hinit hlo)⟩
  · obtain ⟨page, pagelen, a2, f2, lo, _, ha2, hf2, hlo, _, hquery, _, _, _⟩ :=
      cord_lc_ep_eq_ok env dec h fuel g rd r (some a) buf maxlen out hrun
    simp only [Option.some.injEq] at ha2
    subst ha2
    rw [hf] at hf2
    simp only [Option.some.injEq] at hf2
    subst hf2
    exact ⟨_, hquery.trans (typed_query_of_ok env h fuel g _ _ a f page pagelen buf maxlen lo
      hf hinit hlo)⟩

/-- The query on a chain of two segments, `ep=n1` then `rt=t`: `ep=n1`,
`count=1`, `page=0` are sent, `rt=t` is not. -/
theorem typed_lookup_query_head_only_witness :
    chain_segments chain_two 2 (some 0)
      = some [⟨[filter_ep], 1, some 1⟩, ⟨[filter_rt], 1, none⟩] ∧
    out_res_two.query
      = [([101, 112], [110, 49]), ([99, 111, 117, 110, 116], [49]), ([112, 97, 103, 101], [48])] ∧
    ∃ page, out_res_two.query = ([filter_ep].take 1).map staged_entry
      ++ [([99, 111, 117, 110, 116], [49]), ([112, 97, 103, 101], page)] :=
  ⟨by decide, by decide,
   typed_lookup_query_head_only (env_response record_x.1) (example_codec [record_x]) chain_two 2
     ⟨none, 0⟩ (example_rd 0 0) empty_result 0 ⟨[filter_ep], 1, some 1⟩ scratch8 8 out_res_two
     (by decide) (by decide) (Or.inl (by decide))⟩

/-! ## Lemmas on the bootstrap -/

theorem strncmp_eq_zero_of_take (n : Nat) (a b : Bytes) (hlen : n ≤ b.length)
    (htake : a.take n = b.take n) : strncmp a b n = 0 := by
  induction n generalizing a b with
  | zero => simp [strncmp]
  | succ n ih =>
    cases b with
    | nil => simp at hlen
    | cons y b =>
      cases a with
      | nil => simp at htake
      | cons x a =>
        simp only [List.take_succ_cons, List.cons.injEq] at htake
        have hrec := ih a b (by simpa using hlen) htake.2
        simp only [strncmp, List.headD_cons, htake.1, ne_eq, not_true_eq_false, if_false,
          List.tail_cons, hrec, ite_self]

theorem scan_params_keeps_res (lookif : clif_t) (ps : List clif_param_t) (rd : cord_lc_rd_t)
    (hres : rd.res_lookif = some lookif.target ∧ rd.res_lookif_len = lookif.target_len) :
    (scan_params lookif ps rd).res_lookif = some lookif.target ∧
    (scan_params lookif ps rd).res_lookif_len = lookif.target_len := by
  induction ps generalizing rd with
  | nil => exact hres
  | cons p ps ih =>
    simp only [scan_params]
    split
    · exact ih _ ⟨rfl, rfl⟩
    · split
      · exact ih _ hres
      · exact ih _ hres

theorem parse_payload_result (dec : clif_decode_link_t) (b : Bytes) (len fuel : Nat)
    (s s1 : init_state) (r : Int) (hrun : parse_payload dec b len fuel s = .ok (r, s1)) :
    r = CORD_LC_ERR ∨
    (r = (s1.parsed_len : Int) ∧ s1.rd.res_lookif ≠ none ∧ s1.rd.ep_lookif ≠ none ∧
      s1.parsed_len = len) := by
  induction fuel generalizing s with
  | zero =>
    rw [parse_payload] at hrun
    split at hrun
    · exact absurd hrun (by simp)
    · rename_i hcond
      simp only [not_or, Option.isNone_iff_eq_none, ne_eq, not_not] at hcond
      simp only [Option.isNone_iff_eq_none, hcond.1.1, false_and, if_false, Except.ok.injEq,
        Prod.mk.injEq] at hrun
      right
      rw [← hrun.1, ← hrun.2]
      exact ⟨rfl, hcond.1.1, hcond.1.2, hcond.2⟩
  | succ fuel ih =>
    rw [parse_payload] at hrun
    split at hrun
    · simp only at hrun
      split at hrun
      · simp only [Except.ok.injEq, Prod.mk.injEq] at hrun
        exact Or.inl hrun.1.symm
      · exact ih _ hrun
    · rename_i hcond
      simp only [not_or, Option.isNone_iff_eq_none, ne_eq, not_not] at hcond
      simp only [Option.isNone_iff_eq_none, hcond.1.1, false_and, if_false, Except.ok.injEq,
        Prod.mk.injEq] at hrun
      right
      rw [← hrun.1, ← hrun.2]
      exact ⟨rfl, hcond.1.1, hcond.1.2, hcond.2⟩

theorem send_rd_init_req_received (env : gcoap_env) (g g1 : Globals) (r : Int)
    (hstate : env.req_state = .GCOAP_MEMO_RESP) (hct : env.ct = COAP_FORMAT_LINK)
    (hp : env.payload ≠ [])
    (hrun : _send_rd_init_req env g = .ok (r, g1)) :
    r = CORD_LC_ERR ∨ r = CORD_LC_OK := by
  have hp0 : env.payload.length ≠ 0 := by
    simpa using hp
  simp only [_send_rd_init_req, _on_rd_init, hstate, hct, hp0, ne_eq, not_true_eq_false,
    if_false] at hrun
  split at hrun
  · simp only [Except.ok.injEq, Prod.mk.injEq] at hrun
    exact Or.inl hrun.1.symm
  · split at hrun
    · simp only [Except.ok.injEq, Prod.mk.injEq] at hrun
      exact Or.inl hrun.1.symm
    · split at hrun
      · simp only [Except.ok.injEq, Prod.mk.injEq] at hrun
        exact Or.inl hrun.1.symm
      · split at hrun
        · exact absurd hrun (by simp)
        · rename_i g2 flag hcb
          simp only [Except.ok.injEq, Prod.mk.injEq] at hrun
          right
          rw [← hrun.1]
          split at hcb
          · exact absurd hcb (by simp)
          · split at hcb
            · simp only [Except.ok.injEq, Prod.mk.injEq] at hcb
              rw [← hcb.2]
              exact sync_success
            · exact absurd hcb (by simp)

/-! ## C3: the bootstrap outcome when no interface is found -/

/-- C3: once a non-empty link-format payload has been received, a returning
`cord_lc_rd_init` never returns `CORD_LC_NORSC`, whatever the codec decodes:
it returns `CORD_LC_ERR`, or a byte count with both interfaces set.  The
parsing loop is only left normally when both interfaces are set, so the test
for "no lookup interfaces found" that follows it is never true. -/
theorem bootstrap_never_norsc_after_receipt (env : gcoap_env) (dec : clif_decode_link_t)
    (fuel : Nat) (rd : cord_lc_rd_t) (remote : Option Nat) (buf : Bytes) (maxlen : Nat)
    (out : init_out)
    (hstate : env.req_state = .GCOAP_MEMO_RESP) (hct : env.ct = COAP_FORMAT_LINK)
    (hp : env.payload ≠ [])
    (hrun : cord_lc_rd_init env dec fuel rd remote buf maxlen = .ok out) :
    out.retval ≠ CORD_LC_NORSC ∧
    (out.retval = CORD_LC_ERR ∨
      (0 ≤ out.retval ∧ out.rd.res_lookif ≠ none ∧ out.rd.ep_lookif ≠ none)) := by
  have key : out.retval = CORD_LC_ERR ∨
      (0 ≤ out.retval ∧ out.rd.res_lookif ≠ none ∧ out.rd.ep_lookif ≠ none) := by
    simp only [cord_lc_rd_init] at hrun
    split at hrun
    · exact absurd hrun (by simp)
    · split at hrun
      · exact absurd hrun (by simp)
      · split at hrun
        · exact absurd hrun (by simp)
        · rename_i retval g1 hsend
          have hr := send_rd_init_req_received env _ g1 retval hstate hct hp hsend
          split at hrun
          · rename_i hne
            simp only [Except.ok.injEq] at hrun
            rw [← hrun]
            rcases hr with hr | hr
            · exact Or.inl hr
            · exact absurd hr hne
          · split at hrun
            · exact absurd hrun (by simp)
            · split at hrun
              · exact absurd hrun (by simp)
              · rename_i r s1 hparse
                simp only [Except.ok.injEq] at hrun
                rw [← hrun]
                rcases parse_payload_result dec _ _ fuel _ s1 r hparse with h1 | h1
                · exact Or.inl h1
                · right
                  refine ⟨?_, h1.2.1, h1.2.2.1⟩
                  show 0 ≤ r
                  rw [h1.1]
                  exact Int.ofNat_nonneg _
  refine ⟨?_, key⟩
  rcases key with h1 | h1
  · rw [h1]
    decide
  · intro hc
    rw [hc] at h1
    exact absurd h1.1 (by decide)

/-- The bootstrap on the payload `</x>`, a record with no parameter at all,
with a codec that rejects the empty input: the call returns `CORD_LC_ERR`
after a second decode at offset 4, not `CORD_LC_NORSC`. -/
theorem bootstrap_never_norsc_after_receipt_witness :
    cord_lc_rd_init (env_response record_x.1) (example_codec [record_x]) 4 empty_rd (some 1)
        scratch8 8
      = .ok ⟨CORD_LC_ERR, { empty_rd with remote := some 1 }, [0, 4],
             ⟨some [60, 47, 120, 62, 48, 48, 48, 48], 4⟩⟩ ∧
    (CORD_LC_ERR ≠ CORD_LC_NORSC ∧
      (CORD_LC_ERR = CORD_LC_ERR ∨
        (0 ≤ CORD_LC_ERR ∧ ({ empty_rd with remote := some 1 } : cord_lc_rd_t).res_lookif ≠ none
          ∧ ({ empty_rd with remote := some 1 } : cord_lc_rd_t).ep_lookif ≠ none))) :=
  ⟨by decide,
   bootstrap_never_norsc_after_receipt (env_response record_x.1) (example_codec [record_x]) 4
     empty_rd (some 1) scratch8 8
     ⟨CORD_LC_ERR, { empty_rd with remote := some 1 }, [0, 4],
      ⟨some [60, 47, 120, 62, 48, 48, 48, 48], 4⟩⟩ rfl rfl (by decide) (by decide)⟩

/-! ## C10: matching of the resource type -/

/-- C10: a parameter whose declared value is empty, or is the first
`value_len` bytes of `core.rd-lookup-res` for any `value_len` up to 18, makes
`cord_lc_rd_init` assign the record's target as the resource-lookup
interface: `strncmp` is bounded by the length of the value only. -/
theorem scan_params_assigns_on_leading_bytes (lookif : clif_t) (ps : List clif_param_t)
    (rd : cord_lc_rd_t) (p : clif_param_t) (hp : p ∈ ps) (hlen : p.value_len ≤ 18)
    (hlead : p.value.take p.value_len = LOOKUP_RES.take p.value_len) :
    strncmp p.value LOOKUP_RES p.value_len = 0 ∧
    (scan_params lookif ps rd).res_lookif = some lookif.target ∧
    (scan_params lookif ps rd).res_lookif_len = lookif.target_len := by
  have hcmp : strncmp p.value LOOKUP_RES p.value_len = 0 :=
    strncmp_eq_zero_of_take _ _ _ (le_trans hlen (by decide)) hlead
  refine ⟨hcmp, ?_⟩
  induction ps generalizing rd with
  | nil => simp at hp
  | cons q ps ih =>
    simp only [List.mem_cons] at hp
    rcases hp with hp | hp
    · subst hp
      simp only [scan_params, hcmp, if_true]
      exact scan_params_keeps_res lookif ps _ ⟨rfl, rfl⟩
    · simp only [scan_params]
      split
      · exact ih _ hp
      · split
        · exact ih _ hp
        · exact ih _ hp

/-- The records `</a>;rt="core"` (value `core`, a proper prefix of
`core.rd-lookup-res`) and `</a>;obs` (empty value): each makes the bootstrap
take `/a` as the resource-lookup interface. -/
theorem scan_params_assigns_on_leading_bytes_witness :
    (strncmp (payload_core.drop 9) LOOKUP_RES 4 = 0 ∧
      (scan_params record_core.2 record_core.2.params empty_rd).res_lookif
        = some (payload_core.drop 1) ∧
      (scan_params record_core.2 record_core.2.params empty_rd).res_lookif_len = 2) ∧
    (strncmp [] LOOKUP_RES 0 = 0 ∧
      (scan_params record_obs.2 record_obs.2.params empty_rd).res_lookif
        = some (payload_obs.drop 1) ∧
      (scan_params record_obs.2 record_obs.2.params empty_rd).res_lookif_len = 2) :=
  ⟨scan_params_assigns_on_leading_bytes record_core.2 record_core.2.params empty_rd
     ⟨payload_core.drop 5, 2, payload_core.drop 9, 4⟩ (by decide) (by decide) (by decide),
   scan_params_assigns_on_leading_bytes record_obs.2 record_obs.2.params empty_rd
     ⟨payload_obs.drop 5, 3, [], 0⟩ (by decide) (by decide) (by decide)⟩

/-! ## C2: where the bootstrap stops decoding -/

/-- C2: started on a handle with both interface paths empty, on a received
payload that the codec decodes as one record consuming all of it and after
which the resource-lookup interface is still empty (the only matching value
is `core.rd-lookup-ep`, or none matches), `cord_lc_rd_init` does not stop:
it calls `clif_decode_link` again at the offset equal to the payload length,
on no bytes, and with a codec that rejects the empty input it returns
`CORD_LC_ERR`, not the number of bytes consumed. -/
theorem bootstrap_decodes_past_end (env : gcoap_env) (dec : clif_decode_link_t) (fuel : Nat)
    (rd : cord_lc_rd_t) (remote : Option Nat) (buf : Bytes) (maxlen : Nat) (link : clif_t)
    (hremote : remote ≠ none) (hbuf : maxlen ≤ buf.length)
    (hfit : env.payload.length ≤ buf.length)
    (hinit : 0 ≤ env.req_init) (hfin : 0 ≤ env.finish) (hsend : env.send ≠ 0)
    (hstate : env.req_state = .GCOAP_MEMO_RESP) (hct : env.ct = COAP_FORMAT_LINK)
    (hp : env.payload ≠ [])
    (hres0 : rd.res_lookif = none)
    (hdec : dec 6 env.payload = ⟨(env.payload.length : Int), link⟩)
    (hres : (scan_params link link.params { rd with remote := remote }).res_lookif = none)
    (hempty : (dec (6 - link.params.length) []).ret < 0) :
    cord_lc_rd_init env dec (fuel + 2) rd remote buf maxlen
      = .ok ⟨CORD_LC_ERR, scan_params link link.params { rd with remote := remote },
             [0, env.payload.length],
             ⟨some (env.payload
                ++ (List.replicate maxlen 48 ++ buf.drop maxlen).drop env.payload.length),
              env.payload.length⟩⟩ := by
  have hr : remote.isNone = false := by
    cases hr : remote with
    | none => exact absurd hr hremote
    | some _ => rfl
  have hp0 : env.payload.length ≠ 0 := by
    simpa using hp
  have hlenB : (List.replicate maxlen 48 ++ buf.drop maxlen).length = buf.length := by
    simp only [List.length_append, List.length_replicate, List.length_drop]
    omega
  have hsendreq : _send_rd_init_req env
      ⟨some (List.replicate maxlen 48 ++ buf.drop maxlen), maxlen⟩
      = .ok (CORD_LC_OK, ⟨some (env.payload
          ++ (List.replicate maxlen 48 ++ buf.drop maxlen).drop env.payload.length),
          env.payload.length⟩) := by
    simp only [_send_rd_init_req, _on_rd_init, not_lt.mpr hinit, not_lt.mpr hfin, hsend, hstate,
      hct, hp0, hlenB, hfit, if_false, if_true, ne_eq, not_true_eq_false, sync_success]
  have hstep2 : ∀ (k : Nat) (s : init_state), s.rd.res_lookif = none →
      s.parsed_len = env.payload.length → s.params_used = link.params.length →
      parse_payload dec (env.payload
          ++ (List.replicate maxlen 48 ++ buf.drop maxlen).drop env.payload.length)
        env.payload.length (k + 1) s
        = .ok (CORD_LC_ERR, { s with calls := s.calls ++ [s.parsed_len] }) := by
    intro k s h1 h2 h3
    rw [parse_payload]
    simp only [h1, h2, h3, Option.isNone_none, true_or, if_true, Nat.sub_self, List.take_zero,
      hempty]
  have hstep1 : ∀ rd1 : cord_lc_rd_t, rd1.res_lookif = none →
      (scan_params link link.params rd1).res_lookif = none →
      parse_payload dec (env.payload
          ++ (List.replicate maxlen 48 ++ buf.drop maxlen).drop env.payload.length)
        env.payload.length (fuel + 2) ⟨rd1, 0, 0, []⟩
        = .ok (CORD_LC_ERR, ⟨scan_params link link.params rd1,
            link.params.length, env.payload.length, [0, env.payload.length]⟩) := by
    intro rd1 h1 h2
    rw [parse_payload]
    have hnn : ¬ ((env.payload.length : Int) < 0) := not_lt.mpr (Int.ofNat_nonneg _)
    simp only [h1, Option.isNone_none, true_or, if_true, Nat.sub_zero, List.drop_zero,
      List.take_left', hdec, hnn, if_false, Nat.zero_add, Int.toNat_ofNat, List.nil_append]
    rw [hstep2 fuel _ h2 rfl rfl]
    rfl
  have hok : ¬ CORD_LC_OK ≠ CORD_LC_OK := by simp
  simp only [cord_lc_rd_init, hr, not_lt.mpr hbuf, hsendreq,
    hstep1 { rd with remote := remote } hres0 hres, hok, if_false, Bool.false_eq_true]

/-- The bootstrap on the payload `</rd-lookup/ep>;rt="core.rd-lookup-ep"` in
a buffer of 40 bytes, with a codec that rejects the empty input: the record is
decoded at offset 0, the endpoint interface is set and the resource interface
stays empty, a second decode is made at offset 38, and the call returns
`CORD_LC_ERR`. -/
theorem bootstrap_decodes_past_end_witness :
    cord_lc_rd_init (env_response payload_ep) (example_codec [record_ep]) 2 empty_rd (some 1)
        scratch40 40
      = .ok ⟨CORD_LC_ERR,
             { empty_rd with
               remote := some 1, ep_lookif := some (payload_ep.drop 1), ep_lookif_len := 13 },
             [0, 38], ⟨some (payload_ep ++ [48, 48]), 38⟩⟩ :=
  bootstrap_decodes_past_end (env_response payload_ep) (example_codec [record_ep]) 0 empty_rd
    (some 1) scratch40 40 record_ep.2 (by decide) (by decide) (by decide) (by decide)
    (by decide) (by decide) rfl rfl (by decide) rfl (by decide) (by decide) (by decide)

end CordLc
